import Mathlib

/-!
# MarketingMailPro — formal model of the campaign-send pipeline

A shallow embedding of the email-marketing back office's core:
`EmailService.sendCampaign`, `trackEmailOpen`, `trackEmailClick`,
`processUnsubscribe` (src/server/storage.ts, lines 1300-1583), the
campaign CRUD helpers `getCampaignById` / `updateCampaign`
(storage.ts, lines 594-688) and the `PATCH /api/campaigns/:id` route
(src/server/routes.ts, lines 301-334).

Rows of the relational schema (src/server/routes.ts, schema section)
are Lean structures; the database is a record of row lists; timestamps
are naturals; each `new Date()` taken during one operation is a single
`now` parameter.  The SMTP transport is modelled by a per-contact
outcome oracle (`none` = delivered, `some reason` = the send threw)
plus a log of the messages handed to `transporter.sendMail`.  An
exception thrown outside the per-recipient try block — the spec's
representative example is transport construction, storage.ts line
1398 — is modelled by the `transportFault` parameter, caught by the
outer catch (lines 1486-1501) which forces status "failed".

JavaScript string semantics are embedded exactly where the pipeline
relies on them: `String.prototype.replace` with a *string* pattern
replaces only the first occurrence; with the regex `/\[name\]/gi` it
replaces every case-insensitive occurrence, resuming after each match,
and runs the replacement string through `GetSubstitution`, which
interprets the `$$`, `$&`, dollar-backtick and dollar-quote patterns
(the regex has no capture groups, so `$n` stays literal);
`encodeURIComponent` percent-encodes every UTF-8 byte of the
non-unreserved characters; `x || 'there'` and `if (campaignId)`
treat `''`, `null`/`undefined` and `0` as falsy.
-/

set_option maxRecDepth 100000

namespace MarketingMail

/-! ## JS string primitives -/

/-- ASCII lower-casing, the effect of the `i` flag of `/\[name\]/gi`
on the pattern's letters. -/
def lowc (c : Char) : Char :=
  if 'A' ≤ c ∧ c ≤ 'Z' then Char.ofNat (c.toNat + 32) else c

/-- The five characters that must follow `'['` for `/\[name\]/i` to match,
already lower-cased. -/
def namePat : List Char := ['n', 'a', 'm', 'e', ']']

/-- Does `/\[name\]/i` match at the head of the list? -/
def isNameTok : List Char → Bool
  | [] => false
  | a :: rest => a == '[' && namePat.isPrefixOf (rest.map lowc)

/-- ECMAScript `GetSubstitution` for a replacement string against a match
with no capture groups: `$$` yields a dollar, `$&` the matched text, a
dollar followed by the char 96 (backtick) the part of the original string
before the match, a dollar followed by the char 39 (quote) the part after
it; any other dollar (including `$n`, since the regex has no groups) stays
literal. -/
def getSubstitution (matched before after : List Char) : List Char → List Char
  | [] => []
  | [c] => [c]
  | c :: d :: rest2 =>
    if c = '$' then
      if d = '$' then '$' :: getSubstitution matched before after rest2
      else if d = '&' then matched ++ getSubstitution matched before after rest2
      else if d = Char.ofNat 96 then before ++ getSubstitution matched before after rest2
      else if d = Char.ofNat 39 then after ++ getSubstitution matched before after rest2
      else c :: d :: getSubstitution matched before after rest2
    else c :: getSubstitution matched before after (d :: rest2)

/-- Fuel-driven worker for the global case-insensitive replacement
`content.replace(/\[name\]/gi, repl)` (storage.ts line 1428): scan left to
right and, at each match, insert the replacement expanded by
`GetSubstitution` (with the original text before and after the match),
resuming after the match.  `pre` accumulates the already-scanned original
prefix.  Structural in the fuel so that concrete runs reduce inside the
kernel; the wrapper supplies `l.length`, which is always enough fuel. -/
def replaceNameGo (repl : List Char) : Nat → List Char → List Char → List Char
  | _, _, [] => []
  | 0, _, l => l
  | fuel + 1, pre, c :: rest =>
    if isNameTok (c :: rest) then
      getSubstitution (c :: rest.take 5) pre (rest.drop 5) repl
        ++ replaceNameGo repl fuel (pre ++ (c :: rest.take 5)) (rest.drop 5)
    else c :: replaceNameGo repl fuel (pre ++ [c]) rest

/-- `content.replace(/\[name\]/gi, repl)` on character lists. -/
def replaceNameCI (repl l : List Char) : List Char :=
  replaceNameGo repl l.length [] l

/-- Does `/\[name\]/i` match anywhere in the list? -/
def hasTokCI : List Char → Bool
  | [] => false
  | c :: rest => isNameTok (c :: rest) || hasTokCI rest

/-- JS `s.replace(pat, repl)` with a *string* pattern: only the first
occurrence of `pat` is replaced (storage.ts lines 1436-1439 rely on this). -/
def replaceFirstSub (pat repl : List Char) : List Char → List Char
  | [] => []
  | c :: rest =>
    if pat.isPrefixOf (c :: rest) then repl ++ (c :: rest).drop pat.length
    else c :: replaceFirstSub pat repl rest

/-- Occurrence scanner: does `pat` occur as a contiguous substring? -/
def hasSub (pat : List Char) : List Char → Bool
  | [] => false
  | c :: rest => pat.isPrefixOf (c :: rest) || hasSub pat rest

/-- String-level wrapper for the global case-insensitive name replacement. -/
def jsReplaceNameGI (s repl : String) : String :=
  ⟨replaceNameCI repl.data s.data⟩

/-- String-level wrapper for first-occurrence replacement. -/
def jsReplaceFirst (s pat repl : String) : String :=
  ⟨replaceFirstSub pat.data repl.data s.data⟩

/-- Does `sub` occur in `s`? -/
def strContains (s sub : String) : Bool :=
  hasSub sub.data s.data

/-- Decimal digit character. -/
def digitChar (n : Nat) : Char := Char.ofNat (48 + n)

/-- Fuel-driven decimal rendering of a natural, the effect of JS template
interpolation `${n}` on a non-negative integer.  `natDigits` supplies
`n` as fuel, which is always enough. -/
def natStrGo : Nat → Nat → List Char
  | 0, n => [digitChar (n % 10)]
  | fuel + 1, n =>
    if n < 10 then [digitChar n]
    else natStrGo fuel (n / 10) ++ [digitChar (n % 10)]

/-- Decimal digits of a natural. -/
def natDigits (n : Nat) : List Char := natStrGo n n

/-- JS `${n}` for a natural. -/
def natStr (n : Nat) : String := ⟨natDigits n⟩

/-- The characters `encodeURIComponent` leaves unescaped. -/
def uriUnreserved (c : Char) : Bool :=
  ('A' ≤ c && c ≤ 'Z') || ('a' ≤ c && c ≤ 'z') || ('0' ≤ c && c ≤ '9') ||
  c == '-' || c == '_' || c == '.' || c == '!' || c == '~' || c == '*' ||
  c == Char.ofNat 39 || c == '(' || c == ')'

/-- UTF-8 bytes of a code point, as naturals below 256. -/
def utf8Bytes (n : Nat) : List Nat :=
  if n < 128 then [n]
  else if n < 2048 then [192 + n / 64, 128 + n % 64]
  else if n < 65536 then [224 + n / 4096, 128 + n / 64 % 64, 128 + n % 64]
  else [240 + n / 262144, 128 + n / 4096 % 64, 128 + n / 64 % 64, 128 + n % 64]

/-- Upper-case hexadecimal digit. -/
def hexDigitChar (n : Nat) : Char :=
  if n < 10 then Char.ofNat (48 + n) else Char.ofNat (55 + n)

/-- `encodeURIComponent` on one character. -/
def encChar (c : Char) : List Char :=
  if uriUnreserved c then [c]
  else (utf8Bytes c.toNat).flatMap fun b => ['%', hexDigitChar (b / 16), hexDigitChar (b % 16)]

/-- JS `encodeURIComponent` (storage.ts line 1438). -/
def encodeURIComponent (s : String) : String :=
  ⟨s.data.flatMap encChar⟩

/-! ## Data model (schema tables, src/server/routes.ts schema section) -/

/-- A row of the `contacts` table (the columns the core touches). -/
structure ContactRow where
  id : Nat
  email : String
  name : Option String
  status : String
  userId : Nat
  updatedAt : Nat
deriving DecidableEq

/-- A row of the `contact_list_memberships` join table. -/
structure MembershipRow where
  id : Nat
  contactId : Nat
  listId : Nat
deriving DecidableEq

/-- A row of the `campaigns` table. -/
structure CampaignRow where
  id : Nat
  name : String
  subject : String
  content : String
  senderName : String
  senderEmail : String
  replyToEmail : String
  listId : Nat
  userId : Nat
  templateId : Option Nat
  status : String
  scheduledAt : Option Nat
  sentAt : Option Nat
  updatedAt : Nat
deriving DecidableEq

/-- A row of the `templates` table (only the columns `updateCampaign` reads). -/
structure TemplateRow where
  id : Nat
  content : String
deriving DecidableEq

/-- A row of the `settings` table. -/
structure SettingsRow where
  userId : Nat
  smtpHost : Option String
  smtpPort : Option Nat
  smtpUsername : Option String
  smtpPassword : Option String
  useTls : Option Bool
  defaultFooter : Option String
  includeUnsubscribeLink : Bool
deriving DecidableEq

/-- The `metadata` jsonb column of `campaign_events`: a bounce carries
`{ reason, type: 'soft' }`, a click carries `{ url }`. -/
inductive EventMeta where
  | bounce (reason : String) (kind : String)
  | click (url : String)
deriving DecidableEq

/-- A row of the `campaign_events` table. -/
structure EventRow where
  campaignId : Nat
  contactId : Nat
  eventType : String
  metadata : Option EventMeta
  createdAt : Nat
deriving DecidableEq

/-- The relational store. -/
structure DB where
  campaigns : List CampaignRow
  contacts : List ContactRow
  memberships : List MembershipRow
  templates : List TemplateRow
  settingsRows : List SettingsRow
  events : List EventRow
deriving DecidableEq

/-- A message handed to `transporter.sendMail` (storage.ts lines 1442-1448);
`fromAddr` and `toAddr` are the `from` and `to` fields. -/
structure Mail where
  fromAddr : String
  toAddr : String
  subject : String
  html : String
  replyTo : String
deriving DecidableEq

/-- The `{ success, error? }` value `sendCampaign` resolves with. -/
structure SendResult where
  success : Bool
  error : Option String
deriving DecidableEq

/-! ## Storage queries and updates -/

/-- `db.query.campaigns.findFirst({ where: eq(campaigns.id, campaignId) })`. -/
def findCampaign (db : DB) (id : Nat) : Option CampaignRow :=
  db.campaigns.find? fun c => c.id == id

/-- `db.query.settings.findFirst({ where: eq(settings.userId, userId) })`. -/
def findSettings (db : DB) (userId : Nat) : Option SettingsRow :=
  db.settingsRows.find? fun s => s.userId == userId

/-- The recipient resolver (storage.ts lines 1367-1382): contacts joined to
memberships of the campaign's list, restricted to status 'active'
(set semantics of the inner join). -/
def contactsInList (db : DB) (listId : Nat) : List ContactRow :=
  db.contacts.filter fun c =>
    c.status == "active" && db.memberships.any fun m => m.contactId == c.id && m.listId == listId

/-- `db.update(campaigns).set(...).where(eq(campaigns.id, id))`. -/
def updateCampaignRow (db : DB) (id : Nat) (f : CampaignRow → CampaignRow) : DB :=
  { db with campaigns := db.campaigns.map fun c => if c.id == id then f c else c }

/-- `db.insert(campaignEvents).values(...)`: append-only insert. -/
def insertEvent (db : DB) (e : EventRow) : DB :=
  { db with events := db.events ++ [e] }

/-- Status/sent-time stamp used on both the empty-list path (lines 1386-1392)
and the completion path (lines 1477-1483). -/
def setSent (db : DB) (id now : Nat) : DB :=
  updateCampaignRow db id fun c => { c with status := "sent", sentAt := some now, updatedAt := now }

/-- The 'sending' update, lines 1401-1406. -/
def setSending (db : DB) (id now : Nat) : DB :=
  updateCampaignRow db id fun c => { c with status := "sending", updatedAt := now }

/-- The 'failed' update in the outer catch, lines 1490-1495. -/
def setFailed (db : DB) (id now : Nat) : DB :=
  updateCampaignRow db id fun c => { c with status := "failed", updatedAt := now }

/-- The status a campaign currently has, if it exists. -/
def campaignStatus (db : DB) (id : Nat) : Option String :=
  (findCampaign db id).map fun c => c.status

/-- The sent-time a campaign currently has, if it exists. -/
def campaignSentAt (db : DB) (id : Nat) : Option (Option Nat) :=
  (findCampaign db id).map fun c => c.sentAt

/-- Number of events recorded for a (campaign, contact, eventType) triple. -/
def countEvt (db : DB) (campaignId contactId : Nat) (ty : String) : Nat :=
  (db.events.filter fun e =>
    e.campaignId == campaignId && e.contactId == contactId && e.eventType == ty).length

/-! ## Content composition (storage.ts lines 1408-1439) -/

/-- The unsubscribe placeholder token. -/
def unsubToken : String := "[[UNSUBSCRIBE_LINK]]"

/-- The unsubscribe-link block appended when `includeUnsubscribeLink` is set
(lines 1411-1413, exact template-literal text). -/
def unsubscribeLinkBlock : String :=
  "<div style=\"margin-top: 20px; padding-top: 20px; border-top: 1px solid #eee; font-size: 12px; color: #666;\">\n          <p>If you no longer wish to receive these emails, you can <a href=\"[[UNSUBSCRIBE_LINK]]\" style=\"color: #4A6FFF;\">unsubscribe here</a>.</p>\n        </div>"

/-- Text of the footer block before the interpolated footer (lines 1419-1421). -/
def footerBlockPre : String :=
  "<div style=\"margin-top: 20px; font-size: 12px; color: #666;\">\n          "

/-- Text of the footer block after the interpolated footer. -/
def footerBlockPost : String := "\n        </div>"

/-- The tracking pixel (line 1432), with the contact and campaign ids
interpolated. -/
def trackingPixel (contactId campaignId : Nat) : String :=
  "<img src=\"[[TRACKING_PIXEL_URL]]&contactId=" ++ natStr contactId ++
    "&campaignId=" ++ natStr campaignId ++
    "\" width=\"1\" height=\"1\" alt=\"\" style=\"display:none;\">"

/-- The concrete unsubscribe URL substituted per recipient (line 1438). -/
def unsubscribeUrl (email : String) (campaignId : Nat) : String :=
  "https://yourdomain.com/unsubscribe?email=" ++ encodeURIComponent email ++
    "&campaignId=" ++ natStr campaignId

/-- The text of the unsubscribe block strictly before its placeholder token
(used to decompose `unsubscribeLinkBlock` in proofs). -/
def ubPre : String := "<div style=\"margin-top: 20px; padding-top: 20px; border-top: 1px solid #eee; font-size: 12px; color: #666;\">\n          <p>If you no longer wish to receive these emails, you can <a href=\""

/-- The text of the unsubscribe block strictly after its placeholder token. -/
def ubPost : String := "\" style=\"color: #4A6FFF;\">unsubscribe here</a>.</p>\n        </div>"

/-- The tracking pixel up to the interpolated contact id. -/
def pixHead : String := "<img src=\"[[TRACKING_PIXEL_URL]]&contactId="

/-- The tracking pixel between the two interpolated ids. -/
def pixMid : String := "&campaignId="

/-- The tracking pixel after the interpolated campaign id. -/
def pixTail : String := "\" width=\"1\" height=\"1\" alt=\"\" style=\"display:none;\">"

/-- Base content composition, lines 1408-1422: append the unsubscribe block
if the flag is set, then the footer block if a footer exists (JS truthiness:
an empty-string footer is skipped). -/
def composeBaseContent (content : String) (s : SettingsRow) : String :=
  let c1 := if s.includeUnsubscribeLink then content ++ unsubscribeLinkBlock else content
  match s.defaultFooter with
  | some f => if f == "" then c1 else c1 ++ footerBlockPre ++ f ++ footerBlockPost
  | none => c1

/-- `contact.name || 'there'` (line 1428): `null` and `''` both fall back. -/
def effectiveName (c : ContactRow) : String :=
  match c.name with
  | some n => if n == "" then "there" else n
  | none => "there"

/-- Per-recipient personalization, lines 1427-1439: replace `[name]`
case-insensitively, append the tracking pixel, substitute the first
occurrence of the unsubscribe placeholder. -/
def personalizeContent (base : String) (c : ContactRow) (campaignId : Nat) : String :=
  let named := jsReplaceNameGI base (effectiveName c)
  let withPixel := named ++ trackingPixel c.id campaignId
  jsReplaceFirst withPixel unsubToken (unsubscribeUrl c.email campaignId)

/-! ## Dispatcher (storage.ts lines 1425-1474) -/

/-- The message built for one recipient (lines 1442-1448). -/
def mailFor (campaign : CampaignRow) (c : ContactRow) (html : String) : Mail :=
  { fromAddr := "\"" ++ campaign.senderName ++ "\" <" ++ campaign.senderEmail ++ ">"
    toAddr := c.email
    subject := campaign.subject
    html := html
    replyTo := campaign.replyToEmail }

/-- The 'sent' event recorded on successful delivery (lines 1451-1457). -/
def sentEvent (campaignId contactId now : Nat) : EventRow :=
  ⟨campaignId, contactId, "sent", none, now⟩

/-- The 'bounced' event recorded when the send throws (lines 1462-1472):
carries the failure reason and the fixed classification 'soft'. -/
def bounceEvent (campaignId contactId : Nat) (reason : String) (now : Nat) : EventRow :=
  ⟨campaignId, contactId, "bounced", some (.bounce reason "soft"), now⟩

/-- The one event the loop records for a recipient, as a function of the
transport outcome. -/
def dispatchEvent (campaignId : Nat) (c : ContactRow) (outcome : Option String) (now : Nat) :
    EventRow :=
  match outcome with
  | none => sentEvent campaignId c.id now
  | some reason => bounceEvent campaignId c.id reason now

/-- The per-recipient loop (lines 1425-1474): personalize, attempt delivery,
record exactly one event; a failure is caught locally and the loop continues.
Returns the updated store and the messages handed to the transport, in order. -/
def dispatchLoop (campaign : CampaignRow) (campaignId : Nat) (base : String)
    (outcome : Nat → Option String) (now : Nat) :
    DB → List ContactRow → DB × List Mail
  | db, [] => (db, [])
  | db, c :: rest =>
    let html := personalizeContent base c campaignId
    let db' := insertEvent db (dispatchEvent campaignId c (outcome c.id) now)
    let next := dispatchLoop campaign campaignId base outcome now db' rest
    (next.1, mailFor campaign c html :: next.2)

/-- Is the SMTP host unusable? `!userSettings.smtpHost` — `null` and `''`
are both falsy (line 1354). -/
def smtpHostMissing (s : SettingsRow) : Bool :=
  match s.smtpHost with
  | none => true
  | some h => h == ""

/-- `EmailService.sendCampaign` (storage.ts lines 1335-1502).
`outcome` is the transport oracle; `transportFault` injects an exception
outside the per-recipient try block (at transport construction, line 1398),
handled by the outer catch which sets status 'failed'.  Returns the updated
store, the attempted messages, and the `{ success, error? }` result. -/
def sendCampaign (db : DB) (campaignId now : Nat)
    (outcome : Nat → Option String) (transportFault : Option String) :
    DB × List Mail × SendResult :=
  match findCampaign db campaignId with
  | none => (db, [], ⟨false, some "Campaign not found"⟩)
  | some campaign =>
    match findSettings db campaign.userId with
    | none => (db, [], ⟨false, some "SMTP settings not configured"⟩)
    | some userSettings =>
      if smtpHostMissing userSettings then
        (db, [], ⟨false, some "SMTP settings not configured"⟩)
      else
        let recipients := contactsInList db campaign.listId
        if recipients.isEmpty then
          (setSent db campaignId now, [], ⟨true, none⟩)
        else
          match transportFault with
          | some msg => (setFailed db campaignId now, [], ⟨false, some msg⟩)
          | none =>
            let db1 := setSending db campaignId now
            let base := composeBaseContent campaign.content userSettings
            let run := dispatchLoop campaign campaignId base outcome now db1 recipients
            (setSent run.1 campaignId now, run.2, ⟨true, none⟩)

/-! ## Event recorder callbacks and unsubscribe (storage.ts lines 1504-1579) -/

/-- The existence check of `trackEmailOpen` (lines 1507-1513). -/
def hasOpenedEvent (db : DB) (campaignId contactId : Nat) : Bool :=
  db.events.any fun e =>
    e.campaignId == campaignId && e.contactId == contactId && e.eventType == "opened"

/-- `EmailService.trackEmailOpen` (lines 1504-1528): insert an 'opened'
event unless one already exists for the (campaign, contact) pair. -/
def trackEmailOpen (db : DB) (campaignId contactId now : Nat) : DB :=
  if hasOpenedEvent db campaignId contactId then db
  else insertEvent db ⟨campaignId, contactId, "opened", none, now⟩

/-- `EmailService.trackEmailClick` (lines 1530-1543): always insert. -/
def trackEmailClick (db : DB) (campaignId contactId : Nat) (url : String) (now : Nat) : DB :=
  insertEvent db ⟨campaignId, contactId, "clicked", some (.click url), now⟩

/-- Fire `trackEmailOpen` `n` times for the same pair. -/
def trackOpenN (campaignId contactId now : Nat) : Nat → DB → DB
  | 0, db => db
  | n + 1, db => trackOpenN campaignId contactId now n (trackEmailOpen db campaignId contactId now)

/-- `EmailService.processUnsubscribe` (lines 1545-1579): locate the contact
by email; set its status to 'unsubscribed'; record an 'unsubscribed' event
`if (campaignId)` — JS truthiness, so a supplied id of 0 records nothing. -/
def processUnsubscribe (db : DB) (email : String) (campaignId : Option Nat) (now : Nat) :
    DB × Bool :=
  match db.contacts.find? (fun c => c.email == email) with
  | none => (db, false)
  | some contact =>
    let db1 : DB :=
      { db with
        contacts := db.contacts.map fun c =>
          if c.id == contact.id then { c with status := "unsubscribed", updatedAt := now } else c }
    let db2 :=
      match campaignId with
      | some cid =>
        if cid == 0 then db1
        else insertEvent db1 ⟨cid, contact.id, "unsubscribed", none, now⟩
      | none => db1
    (db2, true)

/-! ## Campaign CRUD used by the PATCH route (storage.ts 594-688, routes.ts 301-334) -/

/-- `storage.getCampaignById` (storage.ts lines 594-606). -/
def getCampaignById (db : DB) (id : Nat) : Option CampaignRow :=
  db.campaigns.find? fun c => c.id == id

/-- The validated body of a campaign create/update request. -/
structure CampaignParams where
  name : String
  subject : String
  content : String
  senderName : String
  senderEmail : String
  replyToEmail : String
  listId : Nat
  templateId : Option Nat
  scheduledAt : Option Nat
deriving DecidableEq

/-- `storage.updateCampaign` (storage.ts lines 646-688): fetch template
content if a template is referenced, derive status from scheduling, update
the row matched by id and owner. -/
def updateCampaign (db : DB) (id userId : Nat) (p : CampaignParams) (now : Nat) : DB :=
  let campaignContent :=
    match p.templateId with
    | some tid =>
      match db.templates.find? (fun t => t.id == tid) with
      | some t => t.content
      | none => p.content
    | none => p.content
  let status := match p.scheduledAt with
    | some _ => "scheduled"
    | none => "draft"
  { db with
    campaigns := db.campaigns.map fun c =>
      if c.id == id && c.userId == userId then
        { c with
          name := p.name, subject := p.subject, content := campaignContent,
          senderName := p.senderName, senderEmail := p.senderEmail,
          replyToEmail := p.replyToEmail, listId := p.listId,
          templateId := p.templateId, status := status,
          scheduledAt := p.scheduledAt, updatedAt := now }
      else c }

/-- Outcome of the PATCH route. -/
inductive PatchResult where
  | notFound
  | notDraft
  | updated
deriving DecidableEq

/-- `PATCH /api/campaigns/:id` (routes.ts lines 301-334): 404 when the
campaign is absent, 400 "Only draft campaigns can be edited" when its status
is not 'draft' (the update is never reached), otherwise update as user 1. -/
def patchCampaign (db : DB) (id : Nat) (p : CampaignParams) (now : Nat) : DB × PatchResult :=
  match getCampaignById db id with
  | none => (db, .notFound)
  | some campaign =>
    if campaign.status != "draft" then (db, .notDraft)
    else (updateCampaign db id 1 p now, .updated)

/-! ## Witness fixtures: a tiny concrete store -/

/-- Settings of user 1: configured host, unsubscribe link on, footer present. -/
def wSettings : SettingsRow :=
  ⟨1, some "smtp.example.com", some 587, some "u", some "p", some true, some "The footer", true⟩

/-- Settings of user 1 with no unsubscribe link and no footer. -/
def wSettingsPlain : SettingsRow :=
  ⟨1, some "smtp.example.com", some 587, none, none, some true, none, false⟩

/-- An active contact named Ada on list 5. -/
def wAda : ContactRow := ⟨7, "ada@example.com", some "Ada", "active", 1, 0⟩

/-- An active contact with no name on list 5. -/
def wNoName : ContactRow := ⟨8, "nn@example.com", none, "active", 1, 0⟩

/-- An unsubscribed contact on list 5. -/
def wGone : ContactRow := ⟨9, "gone@example.com", some "Gone", "unsubscribed", 1, 0⟩

/-- A draft campaign targeting list 5. -/
def wCampaign : CampaignRow :=
  ⟨3, "Launch", "Hello", "Hi [name], welcome", "Sender", "sender@example.com",
    "reply@example.com", 5, 1, none, "draft", none, none, 0⟩

/-- A campaign targeting the empty list 6. -/
def wCampaignEmpty : CampaignRow :=
  ⟨4, "Empty", "Hello", "Body", "Sender", "sender@example.com",
    "reply@example.com", 6, 1, none, "draft", none, none, 0⟩

/-- The witness store: campaigns 3 (list 5) and 4 (empty list 6); contacts
Ada, the nameless one and an unsubscribed one, all members of list 5. -/
def wDB : DB :=
  ⟨[wCampaign, wCampaignEmpty], [wAda, wNoName, wGone],
   [⟨1, 7, 5⟩, ⟨2, 8, 5⟩, ⟨3, 9, 5⟩], [], [wSettings], []⟩

/-- As `wDB` but with the plain settings. -/
def wDBPlain : DB :=
  ⟨[wCampaign, wCampaignEmpty], [wAda, wNoName, wGone],
   [⟨1, 7, 5⟩, ⟨2, 8, 5⟩, ⟨3, 9, 5⟩], [], [wSettingsPlain], []⟩

/-- As campaign 3 but already sent once: status "sent", stamped sent-time 1. -/
def wCampaignDone : CampaignRow :=
  ⟨3, "Launch", "Hello", "Hi [name], welcome", "Sender", "sender@example.com",
    "reply@example.com", 5, 1, none, "sent", none, some 1, 1⟩

/-- The witness store holding only the already-sent campaign 3. -/
def wDBSent : DB :=
  ⟨[wCampaignDone], [wAda, wNoName, wGone],
   [⟨1, 7, 5⟩, ⟨2, 8, 5⟩, ⟨3, 9, 5⟩], [], [wSettingsPlain], []⟩

/-- A draft campaign whose authored body itself contains the placeholder
token, targeting list 5. -/
def wCampaignTok : CampaignRow :=
  ⟨10, "Tok", "S", "see [[UNSUBSCRIBE_LINK]] here", "Sender", "sender@example.com",
    "reply@example.com", 5, 1, none, "draft", none, none, 0⟩

/-- Store for the C5 counterexample. -/
def wDBTok : DB := ⟨[wCampaignTok], [wAda], [⟨1, 7, 5⟩], [], [wSettings], []⟩

/-- A draft campaign with a bracket-free body, targeting list 5. -/
def wCampaignPlainBody : CampaignRow :=
  ⟨12, "Plain", "S", "Hello friend", "Sender", "sender@example.com",
    "reply@example.com", 5, 1, none, "draft", none, none, 0⟩

/-- Store for the C5 amended witness. -/
def wDBC5 : DB := ⟨[wCampaignPlainBody], [wAda], [⟨1, 7, 5⟩], [], [wSettings], []⟩


/-- An active contact whose stored name is the JS substitution pattern
for "the matched text". -/
def wDollar : ContactRow := ⟨13, "dollar@example.com", some "$&", "active", 1, 0⟩

/-- Store for the C6 counterexample: campaign 3 over list 5 whose only
member is the dollar-named contact. -/
def wDBDollar : DB :=
  ⟨[wCampaign], [wDollar], [⟨1, 13, 5⟩], [], [wSettingsPlain], []⟩

/-! ## Equation lemmas for the fuel-driven name replacement -/

theorem getSubstitution_no_dollar (matched before after : List Char) :
    ∀ repl, '$' ∉ repl → getSubstitution matched before after repl = repl := by
  intro repl
  induction repl with
  | nil => intro _; rfl
  | cons c rest ih =>
    intro h
    have hc : c ≠ '$' := fun hh => h (hh ▸ List.mem_cons_self c rest)
    have hr : '$' ∉ rest := fun hh => h (List.mem_cons_of_mem c hh)
    cases rest with
    | nil => rfl
    | cons d rest2 =>
      simp only [getSubstitution]
      rw [if_neg hc, ih hr]

theorem replaceNameGo_fuel_irrel (repl : List Char) :
    ∀ f₁ f₂ pre l, l.length ≤ f₁ → l.length ≤ f₂ →
      replaceNameGo repl f₁ pre l = replaceNameGo repl f₂ pre l := by
  intro f₁
  induction f₁ with
  | zero =>
    intro f₂ pre l h₁ _
    have : l = [] := List.length_eq_zero.mp (Nat.le_zero.mp h₁)
    subst this
    cases f₂ <;> rfl
  | succ f ih =>
    intro f₂ pre l h₁ h₂
    cases l with
    | nil => cases f₂ <;> rfl
    | cons c rest =>
      cases f₂ with
      | zero => exact absurd h₂ (by simp)
      | succ f' =>
        simp only [replaceNameGo]
        by_cases h : isNameTok (c :: rest) = true
        · rw [if_pos h, if_pos h]
          have hlen : (rest.drop 5).length ≤ f := by
            have := List.length_drop 5 rest
            simp at h₁
            omega
          have hlen' : (rest.drop 5).length ≤ f' := by
            have := List.length_drop 5 rest
            simp at h₂
            omega
          rw [ih f' _ _ hlen hlen']
        · rw [if_neg h, if_neg h]
          have hlen : rest.length ≤ f := by simp at h₁; omega
          have hlen' : rest.length ≤ f' := by simp at h₂; omega
          rw [ih f' _ _ hlen hlen']

theorem replaceNameGo_pre_irrel (repl : List Char) (hd : '$' ∉ repl) :
    ∀ fuel pre pre' l, replaceNameGo repl fuel pre l = replaceNameGo repl fuel pre' l := by
  intro fuel
  induction fuel with
  | zero => intro pre pre' l; cases l <;> rfl
  | succ f ih =>
    intro pre pre' l
    cases l with
    | nil => rfl
    | cons c rest =>
      simp only [replaceNameGo]
      by_cases h : isNameTok (c :: rest) = true
      · rw [if_pos h, if_pos h,
          getSubstitution_no_dollar _ _ _ repl hd, getSubstitution_no_dollar _ _ _ repl hd,
          ih (pre ++ (c :: rest.take 5)) (pre' ++ (c :: rest.take 5)) (rest.drop 5)]
      · rw [if_neg h, if_neg h, ih (pre ++ [c]) (pre' ++ [c]) rest]

theorem replaceNameCI_cons (repl : List Char) (c : Char) (rest : List Char)
    (hd : '$' ∉ repl) :
    replaceNameCI repl (c :: rest) =
      if isNameTok (c :: rest) then repl ++ replaceNameCI repl (rest.drop 5)
      else c :: replaceNameCI repl rest := by
  show replaceNameGo repl (rest.length + 1) [] (c :: rest) = _
  simp only [replaceNameGo]
  by_cases h : isNameTok (c :: rest) = true
  · rw [if_pos h, if_pos h, getSubstitution_no_dollar _ _ _ repl hd,
      replaceNameGo_pre_irrel repl hd rest.length ([] ++ (c :: rest.take 5)) [] (rest.drop 5),
      replaceNameGo_fuel_irrel repl rest.length (rest.drop 5).length _ (rest.drop 5)
        (by have := List.length_drop 5 rest; omega) (Nat.le_refl _)]
    rfl
  · rw [if_neg h, if_neg h,
      replaceNameGo_pre_irrel repl hd rest.length ([] ++ [c]) [] rest,
      replaceNameGo_fuel_irrel repl rest.length rest.length _ rest
        (Nat.le_refl _) (Nat.le_refl _)]
    rfl

/-! ## Substring scanning lemmas -/

theorem isNameTok_cons_ne (c : Char) (l : List Char) (h : c ≠ '[') :
    isNameTok (c :: l) = false := by
  simp [isNameTok, h]

theorem isNameTok_snd (c d : Char) (l : List Char) (h : lowc d ≠ 'n') :
    isNameTok (c :: d :: l) = false := by
  simp [isNameTok, namePat, List.isPrefixOf, Ne.symm h]

theorem hasTokCI_cons_of (c : Char) (l : List Char) (h : isNameTok (c :: l) = false) :
    hasTokCI (c :: l) = hasTokCI l := by
  simp [hasTokCI, h]

theorem hasTokCI_append_left (x y : List Char) (hx : '[' ∉ x) :
    hasTokCI (x ++ y) = hasTokCI y := by
  induction x with
  | nil => rfl
  | cons c t ih =>
    have hc : c ≠ '[' := fun h => hx (h ▸ List.mem_cons_self c t)
    have ht : '[' ∉ t := fun h => hx (List.mem_cons_of_mem c h)
    rw [List.cons_append, hasTokCI_cons_of _ _ (isNameTok_cons_ne _ _ hc), ih ht]

theorem isPrefixOf_self_append (p y : List Char) : p.isPrefixOf (p ++ y) = true := by
  induction p with
  | nil => cases y <;> rfl
  | cons c t ih => simp [List.isPrefixOf, ih]

theorem isPrefixOf_cons_ne (a : Char) (p : List Char) (c : Char) (l : List Char)
    (h : a ≠ c) : (a :: p).isPrefixOf (c :: l) = false := by
  simp [List.isPrefixOf, h]

theorem hasSub_cons_of (pat : List Char) (c : Char) (l : List Char)
    (h : pat.isPrefixOf (c :: l) = false) : hasSub pat (c :: l) = hasSub pat l := by
  simp [hasSub, h]

theorem hasSub_append_left (p x y : List Char) (hp : ∃ q, p = '[' :: q) (hx : '[' ∉ x) :
    hasSub p (x ++ y) = hasSub p y := by
  obtain ⟨q, rfl⟩ := hp
  induction x with
  | nil => rfl
  | cons c t ih =>
    have hc : c ≠ '[' := fun h => hx (h ▸ List.mem_cons_self c t)
    have ht : '[' ∉ t := fun h => hx (List.mem_cons_of_mem c h)
    rw [List.cons_append, hasSub_cons_of _ _ _ (isPrefixOf_cons_ne _ _ _ _ (Ne.symm hc)), ih ht]

theorem hasSub_append_of (p x l : List Char) (h : hasSub p l = true) :
    hasSub p (x ++ l) = true := by
  induction x with
  | nil => exact h
  | cons c t ih => simp [hasSub, ih]

theorem hasSub_self_append (c : Char) (q y : List Char) :
    hasSub (c :: q) ((c :: q) ++ y) = true := by
  simp [hasSub, isPrefixOf_self_append]

theorem replaceFirstSub_append_left (p r x y : List Char) (hp : ∃ q, p = '[' :: q)
    (hx : '[' ∉ x) : replaceFirstSub p r (x ++ y) = x ++ replaceFirstSub p r y := by
  obtain ⟨q, rfl⟩ := hp
  induction x with
  | nil => rfl
  | cons c t ih =>
    have hc : c ≠ '[' := fun h => hx (h ▸ List.mem_cons_self c t)
    have ht : '[' ∉ t := fun h => hx (List.mem_cons_of_mem c h)
    rw [List.cons_append, replaceFirstSub,
      if_neg (by rw [isPrefixOf_cons_ne _ _ _ _ (Ne.symm hc)]; simp), ih ht, List.cons_append]

theorem replaceFirstSub_hit (c : Char) (q r y : List Char) :
    replaceFirstSub (c :: q) r ((c :: q) ++ y) = r ++ y := by
  rw [List.cons_append, replaceFirstSub,
    if_pos (by rw [← List.cons_append]; exact isPrefixOf_self_append _ _)]
  simp

theorem replaceNameGo_no_tok (repl : List Char) :
    ∀ fuel pre l, hasTokCI l = false → replaceNameGo repl fuel pre l = l := by
  intro fuel
  induction fuel with
  | zero => intro pre l _; cases l <;> rfl
  | succ f ih =>
    intro pre l h
    cases l with
    | nil => rfl
    | cons c rest =>
      have h1 : isNameTok (c :: rest) = false := by
        cases hh : isNameTok (c :: rest) <;> simp [hasTokCI, hh] at h ⊢
      have h2 : hasTokCI rest = false := by
        cases hh : hasTokCI rest <;> simp [hasTokCI, hh, h1] at h ⊢
      simp only [replaceNameGo]
      rw [if_neg (by simp [h1]), ih (pre ++ [c]) rest h2]

theorem replaceNameCI_no_tok (repl l : List Char) (h : hasTokCI l = false) :
    replaceNameCI repl l = l :=
  replaceNameGo_no_tok repl l.length [] l h

theorem digitChar_ne_bracket (d : Nat) (hd : d < 10) : digitChar d ≠ '[' := by
  interval_cases d <;> decide

theorem natStrGo_no_bracket (fuel n : Nat) : '[' ∉ natStrGo fuel n := by
  induction fuel generalizing n with
  | zero =>
    intro h
    exact digitChar_ne_bracket _ (Nat.mod_lt _ (by omega)) (List.mem_singleton.mp h).symm
  | succ f ih =>
    intro h
    rw [natStrGo] at h
    by_cases h10 : n < 10
    · rw [if_pos h10] at h
      exact digitChar_ne_bracket _ h10 (List.mem_singleton.mp h).symm
    · rw [if_neg h10] at h
      rcases List.mem_append.mp h with h | h
      · exact ih _ h
      · exact digitChar_ne_bracket _ (Nat.mod_lt _ (by omega)) (List.mem_singleton.mp h).symm

theorem natDigits_no_bracket (n : Nat) : '[' ∉ natDigits n := natStrGo_no_bracket n n

theorem hexDigitChar_ne_bracket (m : Nat) (hm : m < 16) : hexDigitChar m ≠ '[' := by
  interval_cases m <;> decide

theorem char_toNat_lt_uniMax (c : Char) : c.toNat < 1114112 := by
  show c.val.toNat < 1114112
  rcases c.valid with h | ⟨_, h2⟩
  · omega
  · exact h2

theorem utf8Bytes_lt (n : Nat) (hn : n < 1114112) : ∀ b ∈ utf8Bytes n, b < 256 := by
  intro b hb
  by_cases h1 : n < 128
  · rw [utf8Bytes, if_pos h1] at hb
    simp at hb
    omega
  · by_cases h2 : n < 2048
    · rw [utf8Bytes, if_neg h1, if_pos h2] at hb
      simp at hb
      rcases hb with rfl | rfl <;> omega
    · by_cases h3 : n < 65536
      · rw [utf8Bytes, if_neg h1, if_neg h2, if_pos h3] at hb
        simp at hb
        rcases hb with rfl | rfl | rfl <;> omega
      · rw [utf8Bytes, if_neg h1, if_neg h2, if_neg h3] at hb
        simp at hb
        rcases hb with rfl | rfl | rfl | rfl <;> omega

theorem encChar_no_bracket (c : Char) : '[' ∉ encChar c := by
  intro h
  rw [encChar] at h
  by_cases hu : uriUnreserved c = true
  · rw [if_pos hu] at h
    rcases List.mem_singleton.mp h with rfl
    exact absurd hu (by decide)
  · rw [if_neg hu] at h
    rcases List.mem_flatMap.mp h with ⟨b, hb, hmem⟩
    have hb256 : b < 256 := utf8Bytes_lt _ (char_toNat_lt_uniMax c) b hb
    rcases List.mem_cons.mp hmem with h' | hmem
    · exact absurd h' (by decide)
    rcases List.mem_cons.mp hmem with h' | hmem
    · exact hexDigitChar_ne_bracket (b / 16) (by omega) h'.symm
    exact hexDigitChar_ne_bracket (b % 16) (by omega) (List.mem_singleton.mp hmem).symm

theorem encodeURIComponent_no_bracket (s : String) : '[' ∉ (encodeURIComponent s).data := by
  intro h
  rcases List.mem_flatMap.mp h with ⟨c, _, hc⟩
  exact encChar_no_bracket c hc

theorem unsubscribeUrl_no_bracket (email : String) (cid : Nat) :
    '[' ∉ (unsubscribeUrl email cid).data := by
  intro h
  rw [unsubscribeUrl] at h
  have hd : ("https://yourdomain.com/unsubscribe?email=" ++ encodeURIComponent email ++
      "&campaignId=" ++ natStr cid).data
      = "https://yourdomain.com/unsubscribe?email=".data ++ (encodeURIComponent email).data ++
        "&campaignId=".data ++ natDigits cid := rfl
  rw [hd] at h
  rcases List.mem_append.mp h with h | h
  · rcases List.mem_append.mp h with h | h
    · rcases List.mem_append.mp h with h | h
      · exact absurd h (by decide)
      · exact encodeURIComponent_no_bracket email h
    · exact absurd h (by decide)
  · exact natDigits_no_bracket cid h

/-! ## Store-level helper lemmas -/

theorem find?_map_comm {α : Type} (l : List α) (p : α → Bool) (g : α → α)
    (hg : ∀ x, p (g x) = p x) :
    (l.map g).find? p = (l.find? p).map g := by
  induction l with
  | nil => rfl
  | cons a t ih =>
    simp only [List.map_cons, List.find?_cons]
    rw [hg a]
    cases h : p a
    · exact ih
    · rfl

theorem findCampaign_update (db : DB) (id : Nat) (f : CampaignRow → CampaignRow)
    (hf : ∀ x, (f x).id = x.id) :
    findCampaign (updateCampaignRow db id f) id
      = (findCampaign db id).map fun c => if c.id == id then f c else c := by
  unfold findCampaign updateCampaignRow
  exact find?_map_comm db.campaigns (fun c => c.id == id)
    (fun c => if c.id == id then f c else c)
    (fun x => by by_cases h : (x.id == id) = true <;> simp [h, hf])

theorem campaignStatus_setSent (db : DB) (id now : Nat) (c : CampaignRow)
    (hc : findCampaign db id = some c) :
    campaignStatus (setSent db id now) id = some "sent" := by
  have hc' : db.campaigns.find? (fun x => x.id == id) = some c := hc
  have hcid : (c.id == id) = true := by
    have h2 := List.find?_some hc'
    simpa using h2
  rw [campaignStatus, setSent,
    findCampaign_update db id
      (fun c => { c with status := "sent", sentAt := some now, updatedAt := now }) (fun x => rfl),
    hc]
  have hid : c.id = id := by simpa using hcid
  simp [hid]

theorem campaignSentAt_setSent (db : DB) (id now : Nat) (c : CampaignRow)
    (hc : findCampaign db id = some c) :
    campaignSentAt (setSent db id now) id = some (some now) := by
  have hc' : db.campaigns.find? (fun x => x.id == id) = some c := hc
  have hcid : (c.id == id) = true := by
    have h2 := List.find?_some hc'
    simpa using h2
  rw [campaignSentAt, setSent,
    findCampaign_update db id
      (fun c => { c with status := "sent", sentAt := some now, updatedAt := now }) (fun x => rfl),
    hc]
  have hid : c.id = id := by simpa using hcid
  simp [hid]

theorem campaignStatus_setFailed (db : DB) (id now : Nat) (c : CampaignRow)
    (hc : findCampaign db id = some c) :
    campaignStatus (setFailed db id now) id = some "failed" := by
  have hc' : db.campaigns.find? (fun x => x.id == id) = some c := hc
  have hcid : (c.id == id) = true := by
    have h2 := List.find?_some hc'
    simpa using h2
  rw [campaignStatus, setFailed,
    findCampaign_update db id
      (fun c => { c with status := "failed", updatedAt := now }) (fun x => rfl),
    hc]
  have hid : c.id = id := by simpa using hcid
  simp [hid]

theorem campaignStatus_setSending (db : DB) (id now : Nat) (c : CampaignRow)
    (hc : findCampaign db id = some c) :
    campaignStatus (setSending db id now) id = some "sending" := by
  have hc' : db.campaigns.find? (fun x => x.id == id) = some c := hc
  have hcid : (c.id == id) = true := by
    have h2 := List.find?_some hc'
    simpa using h2
  rw [campaignStatus, setSending,
    findCampaign_update db id
      (fun c => { c with status := "sending", updatedAt := now }) (fun x => rfl),
    hc]
  have hid : c.id = id := by simpa using hcid
  simp [hid]

theorem dispatchLoop_spec (campaign : CampaignRow) (campaignId : Nat) (base : String)
    (outcome : Nat → Option String) (now : Nat) :
    ∀ (cs : List ContactRow) (db : DB),
      dispatchLoop campaign campaignId base outcome now db cs
        = ({ db with events := db.events ++ cs.map fun c => dispatchEvent campaignId c (outcome c.id) now },
           cs.map fun c => mailFor campaign c (personalizeContent base c campaignId)) := by
  intro cs
  induction cs with
  | nil => intro db; simp [dispatchLoop]
  | cons c rest ih =>
    intro db
    simp only [dispatchLoop, ih, insertEvent, List.map_cons]
    simp [List.append_assoc]

/-- C1: sending a campaign whose target list resolves to zero active contacts
sets status "sent", stamps the sent-time, records zero CampaignEvent rows,
attempts no delivery and returns success — for any transport oracle and even
under a transport-construction fault, which is reached only on the non-empty
path. -/
theorem sendCampaign_empty_recipients_sent
    (db : DB) (cid now : Nat) (outcome : Nat → Option String) (fault : Option String)
    (campaign : CampaignRow) (s : SettingsRow)
    (hc : findCampaign db cid = some campaign)
    (hs : findSettings db campaign.userId = some s)
    (hhost : smtpHostMissing s = false)
    (hempty : contactsInList db campaign.listId = []) :
    (sendCampaign db cid now outcome fault).2.2 = ⟨true, none⟩ ∧
    campaignStatus (sendCampaign db cid now outcome fault).1 cid = some "sent" ∧
    campaignSentAt (sendCampaign db cid now outcome fault).1 cid = some (some now) ∧
    (sendCampaign db cid now outcome fault).1.events = db.events ∧
    (sendCampaign db cid now outcome fault).2.1 = [] := by
  have hrun : sendCampaign db cid now outcome fault = (setSent db cid now, [], ⟨true, none⟩) := by
    simp only [sendCampaign, hc, hs, hhost, hempty]
    simp
  rw [hrun]
  exact ⟨rfl, campaignStatus_setSent db cid now campaign hc,
    campaignSentAt_setSent db cid now campaign hc, rfl, rfl⟩

/-- Witness for C1 at the concrete store: campaign 4 targets list 6, which
has no members. -/
theorem sendCampaign_empty_recipients_sent_witness :
    (sendCampaign wDB 4 11 (fun _ => none) none).2.2 = ⟨true, none⟩ ∧
    campaignStatus (sendCampaign wDB 4 11 (fun _ => none) none).1 4 = some "sent" ∧
    campaignSentAt (sendCampaign wDB 4 11 (fun _ => none) none).1 4 = some (some 11) ∧
    (sendCampaign wDB 4 11 (fun _ => none) none).1.events = wDB.events ∧
    (sendCampaign wDB 4 11 (fun _ => none) none).2.1 = [] :=
  sendCampaign_empty_recipients_sent wDB 4 11 (fun _ => none) none wCampaignEmpty wSettings
    (by decide) (by decide) (by decide) (by decide)

/-- C4: an unresolvable campaign id yields the "Campaign not found" error with
the store untouched and nothing attempted; absent or host-less SMTP settings
yield the "SMTP settings not configured" error, equally without any mutation
(in particular the campaign status, every campaign and contact row, and the
event log are unchanged). -/
theorem sendCampaign_notfound_or_unconfigured_no_mutation
    (db : DB) (cid now : Nat) (outcome : Nat → Option String) (fault : Option String) :
    (findCampaign db cid = none →
      sendCampaign db cid now outcome fault = (db, [], ⟨false, some "Campaign not found"⟩)) ∧
    (∀ campaign, findCampaign db cid = some campaign →
      findSettings db campaign.userId = none →
      sendCampaign db cid now outcome fault = (db, [], ⟨false, some "SMTP settings not configured"⟩)) ∧
    (∀ campaign s, findCampaign db cid = some campaign →
      findSettings db campaign.userId = some s →
      smtpHostMissing s = true →
      sendCampaign db cid now outcome fault = (db, [], ⟨false, some "SMTP settings not configured"⟩)) := by
  refine ⟨fun hc => ?_, fun campaign hc hs => ?_, fun campaign s hc hs hhost => ?_⟩
  · simp only [sendCampaign, hc]
  · simp only [sendCampaign, hc, hs]
  · simp only [sendCampaign, hc, hs, hhost]
    simp

/-- Witness for C4: campaign 99 does not exist in the store; campaign 3's
owner has no settings row in an emptied settings store; and with an
empty-string host the same error is returned with no mutation. -/
theorem sendCampaign_notfound_or_unconfigured_no_mutation_witness :
    sendCampaign wDB 99 11 (fun _ => none) none = (wDB, [], ⟨false, some "Campaign not found"⟩) ∧
    sendCampaign ⟨[wCampaign], [wAda], [⟨1, 7, 5⟩], [], [], []⟩ 3 11 (fun _ => none) none
      = (⟨[wCampaign], [wAda], [⟨1, 7, 5⟩], [], [], []⟩, [],
         ⟨false, some "SMTP settings not configured"⟩) ∧
    sendCampaign ⟨[wCampaign], [wAda], [⟨1, 7, 5⟩], [], [⟨1, some "", none, none, none, none, none, true⟩], []⟩
        3 11 (fun _ => none) none
      = (⟨[wCampaign], [wAda], [⟨1, 7, 5⟩], [], [⟨1, some "", none, none, none, none, none, true⟩], []⟩,
         [], ⟨false, some "SMTP settings not configured"⟩) := by
  refine ⟨?_, ?_, ?_⟩
  · exact (sendCampaign_notfound_or_unconfigured_no_mutation wDB 99 11 (fun _ => none) none).1
      (by decide)
  · exact (sendCampaign_notfound_or_unconfigured_no_mutation
      ⟨[wCampaign], [wAda], [⟨1, 7, 5⟩], [], [], []⟩ 3 11 (fun _ => none) none).2.1
      wCampaign (by decide) (by decide)
  · exact (sendCampaign_notfound_or_unconfigured_no_mutation
      ⟨[wCampaign], [wAda], [⟨1, 7, 5⟩], [], [⟨1, some "", none, none, none, none, none, true⟩], []⟩
      3 11 (fun _ => none) none).2.2
      wCampaign ⟨1, some "", none, none, none, none, none, true⟩ (by decide) (by decide) (by decide)

theorem dispatchEvent_campaignId (cid : Nat) (c : ContactRow) (o : Option String) (now : Nat) :
    (dispatchEvent cid c o now).campaignId = cid := by
  cases o <;> rfl

theorem dispatchEvent_contactId (cid : Nat) (c : ContactRow) (o : Option String) (now : Nat) :
    (dispatchEvent cid c o now).contactId = c.id := by
  cases o <;> rfl

theorem count_dispatch_map (cid now : Nat) (outcome : Nat → Option String) (ty : String) :
    ∀ (cs : List ContactRow) (c : ContactRow), (cs.map fun x => x.id).Nodup → c ∈ cs →
      ((cs.map fun x => dispatchEvent cid x (outcome x.id) now).filter
        (fun e => e.campaignId == cid && e.contactId == c.id && e.eventType == ty)).length
      = if (dispatchEvent cid c (outcome c.id) now).eventType == ty then 1 else 0 := by
  intro cs
  induction cs with
  | nil => intro c _ hmem; cases hmem
  | cons a t ih =>
    intro c hnd hmem
    have hnd' : (t.map fun x => x.id).Nodup := (List.nodup_cons.mp hnd).2
    have hna : a.id ∉ t.map fun x => x.id := (List.nodup_cons.mp hnd).1
    rcases List.mem_cons.mp hmem with rfl | hmem'
    · -- head is the recipient: it contributes, the tail contributes nothing
      have htail : ((t.map fun x => dispatchEvent cid x (outcome x.id) now).filter
          (fun e => e.campaignId == cid && e.contactId == c.id && e.eventType == ty)) = [] := by
        rw [List.filter_eq_nil_iff]
        intro e he
        rcases List.mem_map.mp he with ⟨x, hx, rfl⟩
        have hne : x.id ≠ c.id := fun h => hna (h ▸ List.mem_map_of_mem (fun y => y.id) hx)
        simp [dispatchEvent_campaignId, dispatchEvent_contactId, hne]
      simp only [List.map_cons, List.filter_cons]
      by_cases hpred : ((dispatchEvent cid c (outcome c.id) now).campaignId == cid &&
          (dispatchEvent cid c (outcome c.id) now).contactId == c.id &&
          (dispatchEvent cid c (outcome c.id) now).eventType == ty) = true
      · rw [if_pos hpred, htail]
        have : ((dispatchEvent cid c (outcome c.id) now).eventType == ty) = true := by
          simp at hpred
          simp [hpred.2]
        rw [if_pos this]
        rfl
      · rw [if_neg hpred, htail]
        have : ((dispatchEvent cid c (outcome c.id) now).eventType == ty) = false := by
          simp [dispatchEvent_campaignId, dispatchEvent_contactId] at hpred
          simpa using hpred
        rw [this]
        rfl
    · -- the recipient is in the tail; the head contributes nothing
      have hne : a.id ≠ c.id := by
        intro h
        exact hna (h ▸ List.mem_map_of_mem (fun y => y.id) hmem')
      simp only [List.map_cons, List.filter_cons]
      rw [if_neg (by simp [dispatchEvent_campaignId, dispatchEvent_contactId, hne])]
      exact ih c hnd' hmem'

/-- C2: in the per-recipient loop, every recipient of the resolved set is
processed in order regardless of earlier failures (one message is handed to
the transport per recipient); each recipient gets exactly one recorded event:
a "sent" event on success, a "bounced" event carrying the failure reason and
the fixed classification "soft" on failure; and, for distinct recipient ids,
the per-recipient event counts grow by exactly one of the matching kind. -/
theorem dispatchLoop_per_recipient_events
    (campaign : CampaignRow) (cid : Nat) (base : String)
    (outcome : Nat → Option String) (now : Nat) (db : DB) (cs : List ContactRow) :
    (dispatchLoop campaign cid base outcome now db cs).2
      = cs.map (fun c => mailFor campaign c (personalizeContent base c cid)) ∧
    (dispatchLoop campaign cid base outcome now db cs).1.events
      = db.events ++ cs.map (fun c => dispatchEvent cid c (outcome c.id) now) ∧
    (∀ c : ContactRow, ∀ reason,
      dispatchEvent cid c none now = ⟨cid, c.id, "sent", none, now⟩ ∧
      dispatchEvent cid c (some reason) now
        = ⟨cid, c.id, "bounced", some (.bounce reason "soft"), now⟩) ∧
    ((cs.map fun x => x.id).Nodup → ∀ c ∈ cs,
      countEvt (dispatchLoop campaign cid base outcome now db cs).1 cid c.id "sent"
        = countEvt db cid c.id "sent" + (if outcome c.id = none then 1 else 0) ∧
      countEvt (dispatchLoop campaign cid base outcome now db cs).1 cid c.id "bounced"
        = countEvt db cid c.id "bounced" + (if outcome c.id = none then 0 else 1)) := by
  refine ⟨by rw [dispatchLoop_spec], by rw [dispatchLoop_spec], fun c reason => ⟨rfl, rfl⟩, ?_⟩
  intro hnd c hmem
  have hcount := count_dispatch_map cid now outcome
  constructor
  · rw [countEvt, dispatchLoop_spec]
    simp only [List.filter_append, List.length_append]
    rw [hcount "sent" cs c hnd hmem]
    cases ho : outcome c.id
    · simp [dispatchEvent, sentEvent, countEvt, ho]
    · simp [dispatchEvent, bounceEvent, countEvt, ho]
  · rw [countEvt, dispatchLoop_spec]
    simp only [List.filter_append, List.length_append]
    rw [hcount "bounced" cs c hnd hmem]
    cases ho : outcome c.id
    · simp [dispatchEvent, sentEvent, countEvt, ho]
    · simp [dispatchEvent, bounceEvent, countEvt, ho]

/-- Witness for C2: two recipients, the first delivery succeeds and the
second throws "boom"; both are processed, one "sent" and one "bounced"
(reason "boom", kind "soft") event are recorded. -/
theorem dispatchLoop_per_recipient_events_witness :
    (dispatchLoop wCampaign 3 "B" (fun i => if i == 8 then some "boom" else none) 11 wDB
        [wAda, wNoName]).2
      = [mailFor wCampaign wAda (personalizeContent "B" wAda 3),
         mailFor wCampaign wNoName (personalizeContent "B" wNoName 3)] ∧
    (dispatchLoop wCampaign 3 "B" (fun i => if i == 8 then some "boom" else none) 11 wDB
        [wAda, wNoName]).1.events
      = [⟨3, 7, "sent", none, 11⟩, ⟨3, 8, "bounced", some (.bounce "boom" "soft"), 11⟩] ∧
    countEvt (dispatchLoop wCampaign 3 "B" (fun i => if i == 8 then some "boom" else none) 11 wDB
        [wAda, wNoName]).1 3 7 "sent" = 1 ∧
    countEvt (dispatchLoop wCampaign 3 "B" (fun i => if i == 8 then some "boom" else none) 11 wDB
        [wAda, wNoName]).1 3 8 "bounced" = 1 := by
  have h := dispatchLoop_per_recipient_events wCampaign 3 "B"
    (fun i => if i == 8 then some "boom" else none) 11 wDB [wAda, wNoName]
  refine ⟨h.1, ?_, ?_, ?_⟩
  · rw [h.2.1]; decide
  · have h2 := (h.2.2.2 (by decide) wAda (by decide)).1
    have h7 : wAda.id = 7 := rfl
    rw [h7] at h2
    rw [h2]
    decide
  · have h2 := (h.2.2.2 (by decide) wNoName (by decide)).2
    have h8 : wNoName.id = 8 := rfl
    rw [h8] at h2
    rw [h2]
    decide

theorem findCampaign_setSending (db : DB) (id now : Nat) (c : CampaignRow)
    (hc : findCampaign db id = some c) :
    findCampaign (setSending db id now) id
      = some { c with status := "sending", updatedAt := now } := by
  have hc' : db.campaigns.find? (fun x => x.id == id) = some c := hc
  have hcid : (c.id == id) = true := by
    have h2 := List.find?_some hc'
    simpa using h2
  rw [setSending, findCampaign_update db id
    (fun c => { c with status := "sending", updatedAt := now }) (fun x => rfl), hc]
  have hid : c.id = id := by simpa using hcid
  simp [hid]

/-- Closed form of a complete non-empty dispatch with no pipeline fault. -/
theorem sendCampaign_nonempty_eq
    (db : DB) (cid now : Nat) (outcome : Nat → Option String)
    (campaign : CampaignRow) (s : SettingsRow)
    (hc : findCampaign db cid = some campaign)
    (hs : findSettings db campaign.userId = some s)
    (hhost : smtpHostMissing s = false)
    (hne : contactsInList db campaign.listId ≠ []) :
    sendCampaign db cid now outcome none =
      (setSent { setSending db cid now with
          events := db.events ++ (contactsInList db campaign.listId).map
            (fun c => dispatchEvent cid c (outcome c.id) now) } cid now,
       (contactsInList db campaign.listId).map
         (fun c => mailFor campaign c
           (personalizeContent (composeBaseContent campaign.content s) c cid)),
       ⟨true, none⟩) := by
  have hie : (contactsInList db campaign.listId).isEmpty = false := by
    cases hrec : contactsInList db campaign.listId
    · exact absurd hrec hne
    · rfl
  simp only [sendCampaign, hc, hs, hhost, hie]
  rw [dispatchLoop_spec]
  simp
  rfl

/-- Same closed form with a pipeline fault: status forced to 'failed'. -/
theorem sendCampaign_fault_eq
    (db : DB) (cid now : Nat) (outcome : Nat → Option String) (msg : String)
    (campaign : CampaignRow) (s : SettingsRow)
    (hc : findCampaign db cid = some campaign)
    (hs : findSettings db campaign.userId = some s)
    (hhost : smtpHostMissing s = false)
    (hne : contactsInList db campaign.listId ≠ []) :
    sendCampaign db cid now outcome (some msg)
      = (setFailed db cid now, [], ⟨false, some msg⟩) := by
  have hie : (contactsInList db campaign.listId).isEmpty = false := by
    cases hrec : contactsInList db campaign.listId
    · exact absurd hrec hne
    · rfl
  simp only [sendCampaign, hc, hs, hhost, hie]
  simp

/-- C3: with an existing campaign, a configured transport and a non-empty
recipient set, a fault-free dispatch always completes with success, status
"sent" and a stamped sent-time, no matter how many per-recipient deliveries
failed (the outcome oracle is arbitrary); and the final status is "failed"
precisely when an exception escaped the per-recipient boundary. -/
theorem sendCampaign_completion_and_failed_iff
    (db : DB) (cid now : Nat) (outcome : Nat → Option String)
    (campaign : CampaignRow) (s : SettingsRow)
    (hc : findCampaign db cid = some campaign)
    (hs : findSettings db campaign.userId = some s)
    (hhost : smtpHostMissing s = false)
    (hne : contactsInList db campaign.listId ≠ []) :
    ((sendCampaign db cid now outcome none).2.2 = ⟨true, none⟩ ∧
     campaignStatus (sendCampaign db cid now outcome none).1 cid = some "sent" ∧
     campaignSentAt (sendCampaign db cid now outcome none).1 cid = some (some now)) ∧
    (∀ fault, campaignStatus (sendCampaign db cid now outcome fault).1 cid = some "failed"
      ↔ fault ≠ none) := by
  have hmid : findCampaign { setSending db cid now with
      events := db.events ++ (contactsInList db campaign.listId).map
        (fun c => dispatchEvent cid c (outcome c.id) now) } cid
      = some { campaign with status := "sending", updatedAt := now } :=
    findCampaign_setSending db cid now campaign hc
  have hok := sendCampaign_nonempty_eq db cid now outcome campaign s hc hs hhost hne
  refine ⟨⟨by rw [hok], ?_, ?_⟩, ?_⟩
  · rw [hok]
    exact campaignStatus_setSent _ cid now _ hmid
  · rw [hok]
    exact campaignSentAt_setSent _ cid now _ hmid
  · intro fault
    cases fault with
    | none =>
      have hsent : campaignStatus (sendCampaign db cid now outcome none).1 cid = some "sent" := by
        rw [hok]
        exact campaignStatus_setSent _ cid now _ hmid
      constructor
      · intro hbad
        rw [hsent] at hbad
        exact absurd (Option.some.inj hbad) (by decide)
      · intro hbad
        exact absurd rfl hbad
    | some msg =>
      have hfail := sendCampaign_fault_eq db cid now outcome msg campaign s hc hs hhost hne
      constructor
      · intro _
        exact Option.noConfusion
      · intro _
        rw [hfail]
        exact campaignStatus_setFailed db cid now campaign hc

/-- Witness for C3: campaign 3 over list 5 with one failing recipient
completes as "sent" with a stamped time; with an injected pipeline fault the
status is "failed", and without one it is not. -/
theorem sendCampaign_completion_and_failed_iff_witness :
    (sendCampaign wDB 3 11 (fun i => if i == 7 then some "refused" else none) none).2.2
      = ⟨true, none⟩ ∧
    campaignStatus (sendCampaign wDB 3 11 (fun i => if i == 7 then some "refused" else none)
      none).1 3 = some "sent" ∧
    campaignSentAt (sendCampaign wDB 3 11 (fun i => if i == 7 then some "refused" else none)
      none).1 3 = some (some 11) ∧
    campaignStatus (sendCampaign wDB 3 11 (fun i => if i == 7 then some "refused" else none)
      (some "connect ECONNREFUSED")).1 3 = some "failed" ∧
    campaignStatus (sendCampaign wDB 3 11 (fun i => if i == 7 then some "refused" else none)
      none).1 3 ≠ some "failed" := by
  have h := sendCampaign_completion_and_failed_iff wDB 3 11
    (fun i => if i == 7 then some "refused" else none) wCampaign wSettings
    (by decide) (by decide) (by decide) (by decide)
  exact ⟨h.1.1, h.1.2.1, h.1.2.2,
    (h.2 (some "connect ECONNREFUSED")).mpr (by simp),
    fun hb => (h.2 none).mp hb rfl⟩

/-- C10: `sendCampaign` places no precondition on the campaign's current
status: whatever that status is (in particular "sent" or "failed"), the whole
pipeline runs again — the row passes through "sending", every currently
eligible recipient is dispatched to, one fresh event per recipient is
appended, and the campaign finishes at "sent" with a freshly stamped
sent-time. -/
theorem sendCampaign_no_status_precondition
    (db : DB) (cid now : Nat) (outcome : Nat → Option String)
    (campaign : CampaignRow) (s : SettingsRow)
    (hc : findCampaign db cid = some campaign)
    (hs : findSettings db campaign.userId = some s)
    (hhost : smtpHostMissing s = false)
    (hne : contactsInList db campaign.listId ≠ []) :
    (sendCampaign db cid now outcome none).2.2 = ⟨true, none⟩ ∧
    campaignStatus (sendCampaign db cid now outcome none).1 cid = some "sent" ∧
    campaignSentAt (sendCampaign db cid now outcome none).1 cid = some (some now) ∧
    (sendCampaign db cid now outcome none).1.events
      = db.events ++ (contactsInList db campaign.listId).map
          (fun c => dispatchEvent cid c (outcome c.id) now) ∧
    (sendCampaign db cid now outcome none).2.1
      = (contactsInList db campaign.listId).map
          (fun c => mailFor campaign c
            (personalizeContent (composeBaseContent campaign.content s) c cid)) ∧
    campaignStatus (setSending db cid now) cid = some "sending" := by
  have hmid : findCampaign { setSending db cid now with
      events := db.events ++ (contactsInList db campaign.listId).map
        (fun c => dispatchEvent cid c (outcome c.id) now) } cid
      = some { campaign with status := "sending", updatedAt := now } :=
    findCampaign_setSending db cid now campaign hc
  have hok := sendCampaign_nonempty_eq db cid now outcome campaign s hc hs hhost hne
  refine ⟨by rw [hok], ?_, ?_, ?_, by rw [hok], ?_⟩
  · rw [hok]
    exact campaignStatus_setSent _ cid now _ hmid
  · rw [hok]
    exact campaignSentAt_setSent _ cid now _ hmid
  · rw [hok]
    rfl
  · exact campaignStatus_setSending db cid now campaign hc

/-- Witness for C10: campaign 3 is already "sent" (sent-time 1); invoking the
send again dispatches to both active members of list 5, appends two fresh
"sent" events and restamps the sent-time to the new clock. -/
theorem sendCampaign_no_status_precondition_witness :
    campaignStatus wDBSent 3 = some "sent" ∧
    (sendCampaign wDBSent 3 99 (fun _ => none) none).2.2 = ⟨true, none⟩ ∧
    campaignStatus (sendCampaign wDBSent 3 99 (fun _ => none) none).1 3 = some "sent" ∧
    campaignSentAt (sendCampaign wDBSent 3 99 (fun _ => none) none).1 3 = some (some 99) ∧
    (sendCampaign wDBSent 3 99 (fun _ => none) none).1.events
      = [⟨3, 7, "sent", none, 99⟩, ⟨3, 8, "sent", none, 99⟩] ∧
    (sendCampaign wDBSent 3 99 (fun _ => none) none).2.1.length = 2 ∧
    campaignStatus (setSending wDBSent 3 99) 3 = some "sending" := by
  have h := sendCampaign_no_status_precondition wDBSent 3 99 (fun _ => none)
    wCampaignDone wSettingsPlain (by decide) (by decide) (by decide) (by decide)
  refine ⟨by decide, h.1, h.2.1, h.2.2.1, ?_, ?_, h.2.2.2.2.2⟩
  · rw [h.2.2.2.1]
    decide
  · rw [h.2.2.2.2.1]
    decide

theorem countEvt_insertEvent (db : DB) (e : EventRow) (cid ctid : Nat) (ty : String) :
    countEvt (insertEvent db e) cid ctid ty
      = countEvt db cid ctid ty
        + (if (e.campaignId == cid && e.contactId == ctid && e.eventType == ty) = true
           then 1 else 0) := by
  rw [countEvt, insertEvent, countEvt]
  simp only [List.filter_append, List.length_append]
  by_cases h : (e.campaignId == cid && e.contactId == ctid && e.eventType == ty) = true
  · simp [List.filter_cons, h]
  · simp [List.filter_cons, h]

theorem hasOpenedEvent_false_iff (db : DB) (cid ctid : Nat) :
    hasOpenedEvent db cid ctid = false ↔ countEvt db cid ctid "opened" = 0 := by
  rw [hasOpenedEvent, countEvt, List.any_eq_false, List.length_eq_zero, List.filter_eq_nil_iff]

theorem trackEmailOpen_of_zero (db : DB) (cid ctid now : Nat)
    (h : countEvt db cid ctid "opened" = 0) :
    countEvt (trackEmailOpen db cid ctid now) cid ctid "opened" = 1 := by
  rw [trackEmailOpen, if_neg (by rw [(hasOpenedEvent_false_iff db cid ctid).mpr h]; simp)]
  rw [countEvt_insertEvent, h, if_pos (by simp)]

theorem trackEmailOpen_of_pos (db : DB) (cid ctid now : Nat)
    (h : countEvt db cid ctid "opened" ≠ 0) :
    trackEmailOpen db cid ctid now = db := by
  rw [trackEmailOpen, if_pos ]
  cases hb : hasOpenedEvent db cid ctid
  · exact absurd ((hasOpenedEvent_false_iff db cid ctid).mp hb) h
  · rfl

theorem trackOpenN_of_one (cid ctid now : Nat) :
    ∀ (n : Nat) (db : DB), countEvt db cid ctid "opened" = 1 →
      countEvt (trackOpenN cid ctid now n db) cid ctid "opened" = 1 := by
  intro n
  induction n with
  | zero => intro db h; exact h
  | succ m ih =>
    intro db h
    rw [trackOpenN, trackEmailOpen_of_pos db cid ctid now (by omega)]
    exact ih db h

/-- C7: the recorder deduplicates exactly the "opened" type.  Starting from a
store with no "opened" event for the pair, firing open tracking any positive
number of times leaves exactly one "opened" event; firing click tracking
twice appends two "clicked" events. -/
theorem open_dedup_click_not :
    (∀ (db : DB) (cid ctid now n : Nat), 1 ≤ n → countEvt db cid ctid "opened" = 0 →
      countEvt (trackOpenN cid ctid now n db) cid ctid "opened" = 1) ∧
    (∀ (db : DB) (cid ctid : Nat) (url : String) (now : Nat),
      countEvt db cid ctid "clicked" = 0 →
      countEvt (trackEmailClick (trackEmailClick db cid ctid url now) cid ctid url now)
        cid ctid "clicked" = 2) := by
  constructor
  · intro db cid ctid now n hn h0
    cases n with
    | zero => omega
    | succ m =>
      rw [trackOpenN]
      exact trackOpenN_of_one cid ctid now m _ (trackEmailOpen_of_zero db cid ctid now h0)
  · intro db cid ctid url now h0
    rw [trackEmailClick, trackEmailClick, countEvt_insertEvent, countEvt_insertEvent, h0]
    simp

/-- Witness for C7: on the empty event log, two open-tracking calls for
(3, 7) leave one "opened" event; two click-tracking calls leave two
"clicked" events. -/
theorem open_dedup_click_not_witness :
    countEvt (trackOpenN 3 7 42 2 wDB) 3 7 "opened" = 1 ∧
    countEvt (trackEmailClick (trackEmailClick wDB 3 7 "https://x" 42) 3 7 "https://x" 42)
      3 7 "clicked" = 2 :=
  ⟨open_dedup_click_not.1 wDB 3 7 42 2 (by omega) (by decide),
   open_dedup_click_not.2 wDB 3 7 "https://x" 42 (by decide)⟩

/-- Counterexample for C8 as stated: for a contact known to the store, a
*supplied* campaign identifier of 0 (JS-falsy: `if (campaignId)`) yields
success and the status update but appends no "unsubscribed" event at all. -/
theorem processUnsubscribe_zero_id_cx :
    (processUnsubscribe wDB "ada@example.com" (some 0) 42).2 = true ∧
    ((processUnsubscribe wDB "ada@example.com" (some 0) 42).1.contacts.find?
      (fun c => c.email == "ada@example.com")).map (fun c => c.status)
       = some "unsubscribed" ∧
    (processUnsubscribe wDB "ada@example.com" (some 0) 42).1.events = [] := by
  decide

theorem processUnsubscribe_found_contacts (db : DB) (email : String) (cid : Option Nat)
    (now : Nat) (contact : ContactRow)
    (hf : db.contacts.find? (fun c => c.email == email) = some contact) :
    (processUnsubscribe db email cid now).1.contacts
      = db.contacts.map fun c =>
          if c.id == contact.id then { c with status := "unsubscribed", updatedAt := now }
          else c := by
  cases cid with
  | none => simp [processUnsubscribe, hf]
  | some k =>
    by_cases hk : k = 0
    · subst hk
      simp [processUnsubscribe, hf]
    · simp [processUnsubscribe, hf, hk, insertEvent]

theorem processUnsubscribe_found_events (db : DB) (email : String) (k now : Nat)
    (contact : ContactRow)
    (hf : db.contacts.find? (fun c => c.email == email) = some contact) (hk : k ≠ 0) :
    (processUnsubscribe db email (some k) now).2 = true ∧
    (processUnsubscribe db email (some k) now).1.events
      = db.events ++ [⟨k, contact.id, "unsubscribed", none, now⟩] := by
  constructor
  · simp [processUnsubscribe, hf, hk]
  · simp [processUnsubscribe, hf, hk, insertEvent]

theorem processUnsubscribe_found_find? (db : DB) (email : String) (cid : Option Nat)
    (now : Nat) (contact : ContactRow)
    (hf : db.contacts.find? (fun c => c.email == email) = some contact) :
    (processUnsubscribe db email cid now).1.contacts.find? (fun c => c.email == email)
      = some { contact with status := "unsubscribed", updatedAt := now } := by
  rw [processUnsubscribe_found_contacts db email cid now contact hf]
  rw [find?_map_comm db.contacts (fun c => c.email == email) _
    (fun x => by by_cases h : (x.id == contact.id) = true <;> simp [h]), hf]
  simp

/-- C8 (amended): unknown email — failure, no mutation; known email —
success, every row bearing the contact's id becomes "unsubscribed", and one
"unsubscribed" event is appended exactly when a *non-zero* campaign
identifier was supplied (an identifier of 0 is falsy in JS and records
nothing); re-processing an already-unsubscribed contact succeeds again and
appends a second identical event. -/
theorem processUnsubscribe_contract_amended
    (db : DB) (email : String) (cid : Option Nat) (now : Nat) :
    (db.contacts.find? (fun c => c.email == email) = none →
      processUnsubscribe db email cid now = (db, false)) ∧
    (∀ contact, db.contacts.find? (fun c => c.email == email) = some contact →
      (processUnsubscribe db email cid now).2 = true ∧
      (∀ c' ∈ (processUnsubscribe db email cid now).1.contacts,
        c'.id = contact.id → c'.status = "unsubscribed") ∧
      (cid = none → (processUnsubscribe db email cid now).1.events = db.events) ∧
      (cid = some 0 → (processUnsubscribe db email cid now).1.events = db.events) ∧
      (∀ k, cid = some k → k ≠ 0 →
        (processUnsubscribe db email cid now).1.events
          = db.events ++ [⟨k, contact.id, "unsubscribed", none, now⟩]) ∧
      (∀ k, cid = some k → k ≠ 0 →
        (processUnsubscribe (processUnsubscribe db email cid now).1 email cid now).2 = true ∧
        (processUnsubscribe (processUnsubscribe db email cid now).1 email cid now).1.events
          = db.events ++ [⟨k, contact.id, "unsubscribed", none, now⟩,
                          ⟨k, contact.id, "unsubscribed", none, now⟩])) := by
  constructor
  · intro hn
    rw [processUnsubscribe, hn]
  · intro contact hf
    refine ⟨?_, ?_, ?_, ?_, ?_, ?_⟩
    · cases cid with
      | none => simp [processUnsubscribe, hf]
      | some k =>
        by_cases hk : k = 0
        · subst hk
          simp [processUnsubscribe, hf]
        · simp [processUnsubscribe, hf, hk, insertEvent]
    · rw [processUnsubscribe_found_contacts db email cid now contact hf]
      intro c' hc' hid
      rcases List.mem_map.mp hc' with ⟨x, hx, rfl⟩
      by_cases h : (x.id == contact.id) = true
      · simp [h]
      · rw [if_neg h] at hid ⊢
        exact absurd (by simp [hid]) h
    · intro hcid
      subst hcid
      simp [processUnsubscribe, hf]
    · intro hcid
      subst hcid
      simp [processUnsubscribe, hf]
    · intro k hcid hk
      subst hcid
      exact (processUnsubscribe_found_events db email k now contact hf hk).2
    · intro k hcid hk
      subst hcid
      have hfind2 := processUnsubscribe_found_find? db email (some k) now contact hf
      have h1 := (processUnsubscribe_found_events db email k now contact hf hk).2
      have h2 := processUnsubscribe_found_events (processUnsubscribe db email (some k) now).1
        email k now { contact with status := "unsubscribed", updatedAt := now } hfind2 hk
      refine ⟨h2.1, ?_⟩
      rw [h2.2, h1]
      simp

/-- Witness for C8 (amended): on the concrete store, an unknown email fails
without mutation; Ada's unsubscribe with campaign id 3 succeeds, appends one
event, and a repeat appends a second identical one. -/
theorem processUnsubscribe_contract_amended_witness :
    processUnsubscribe wDB "nobody@example.com" (some 3) 42 = (wDB, false) ∧
    (processUnsubscribe wDB "ada@example.com" (some 3) 42).2 = true ∧
    (processUnsubscribe wDB "ada@example.com" (some 3) 42).1.events
      = [⟨3, 7, "unsubscribed", none, 42⟩] ∧
    (processUnsubscribe (processUnsubscribe wDB "ada@example.com" (some 3) 42).1
      "ada@example.com" (some 3) 42).1.events
      = [⟨3, 7, "unsubscribed", none, 42⟩, ⟨3, 7, "unsubscribed", none, 42⟩] := by
  have h := processUnsubscribe_contract_amended wDB "ada@example.com" (some 3) 42
  have hn := (processUnsubscribe_contract_amended wDB "nobody@example.com" (some 3) 42).1
  have hk := h.2 wAda (by decide)
  refine ⟨hn (by decide), hk.1, ?_, ?_⟩
  · have h2 := hk.2.2.2.2.1 3 rfl (by omega)
    rw [show wAda.id = 7 from rfl] at h2
    rw [h2]
    decide
  · have h2 := (hk.2.2.2.2.2 3 rfl (by omega)).2
    rw [show wAda.id = 7 from rfl] at h2
    rw [h2]
    decide

/-- C9: a campaign that is not in "draft" status cannot be updated: the PATCH
route answers with the rejection and the store — hence every field of the
campaign row — is unchanged; `updateCampaign` is never reached. -/
theorem patchCampaign_rejects_non_draft
    (db : DB) (id : Nat) (p : CampaignParams) (now : Nat) (campaign : CampaignRow)
    (hc : getCampaignById db id = some campaign)
    (hnd : campaign.status ≠ "draft") :
    patchCampaign db id p now = (db, .notDraft) := by
  have hb : (campaign.status != "draft") = true := by simpa using hnd
  simp only [patchCampaign, hc, hb]
  simp

/-- Witness for C9: campaign 3 in the already-sent store has status "sent";
a PATCH attempt is rejected and the store is untouched. -/
theorem patchCampaign_rejects_non_draft_witness :
    patchCampaign wDBSent 3
      ⟨"New name", "New subject", "New body", "SN", "se@example.com", "re@example.com",
        5, none, none⟩ 77
      = (wDBSent, .notDraft) :=
  patchCampaign_rejects_non_draft wDBSent 3
    ⟨"New name", "New subject", "New body", "SN", "se@example.com", "re@example.com",
      5, none, none⟩ 77 wCampaignDone (by decide) (by decide)

theorem isPrefixOf_extend : ∀ (p l y : List Char), p.isPrefixOf l = true →
    p.isPrefixOf (l ++ y) = true := by
  intro p
  induction p with
  | nil => intro l y _; cases l <;> cases y <;> simp [List.isPrefixOf]
  | cons c p' ih =>
    intro l y h
    cases l with
    | nil => exact absurd h (by simp [List.isPrefixOf])
    | cons d l' =>
      simp only [List.isPrefixOf, Bool.and_eq_true] at h
      simp only [List.cons_append, List.isPrefixOf, Bool.and_eq_true]
      exact ⟨h.1, ih l' y h.2⟩

theorem replaceNameCI_split (repl : List Char) (hd : '$' ∉ repl) :
    ∀ (a t b : List Char), '[' ∉ a → isNameTok t = true → t.length = 6 →
      replaceNameCI repl (a ++ t ++ b) = a ++ repl ++ replaceNameCI repl b := by
  intro a
  induction a with
  | nil =>
    intro t b _ ht hlen
    cases t with
    | nil => exact absurd ht (by simp [isNameTok])
    | cons c r =>
      have hr : r.length = 5 := by simpa using hlen
      have htok : isNameTok (c :: (r ++ b)) = true := by
        simp only [isNameTok, Bool.and_eq_true] at ht ⊢
        exact ⟨ht.1, by rw [List.map_append]; exact isPrefixOf_extend _ _ _ ht.2⟩
      simp only [List.nil_append, List.cons_append]
      rw [replaceNameCI_cons repl _ _ hd, if_pos htok]
      rw [List.drop_append_of_le_length (by omega)]
      rw [show r.drop 5 = [] from by rw [← hr]; exact List.drop_length r]
      simp
  | cons c a' ih =>
    intro t b ha ht hlen
    have hc : c ≠ '[' := fun h => ha (h ▸ List.mem_cons_self c a')
    have ha' : '[' ∉ a' := fun h => ha (List.mem_cons_of_mem c h)
    simp only [List.cons_append]
    rw [replaceNameCI_cons repl _ _ hd, if_neg (by simp [isNameTok_cons_ne _ _ hc])]
    rw [show a' ++ t ++ b = a' ++ (t ++ b) from by simp, ← List.append_assoc]
    rw [ih t b ha' ht hlen]

/-- Counterexample for C6 as stated: a contact may be stored with the name
"$&", which `GetSubstitution` expands to the matched text itself; the
rendered mail for body "Hi [name], welcome" still contains "Hi [name],"
and does not contain the name — so not every occurrence is replaced "with
the contact's name". -/
theorem personalization_dollar_name_cx :
    wDollar.name = some "$&" ∧
    jsReplaceNameGI "Hi [name], welcome" (effectiveName wDollar) = "Hi [name], welcome" ∧
    (sendCampaign wDBDollar 3 99 (fun _ => none) none).2.1.length = 1 ∧
    strContains (((sendCampaign wDBDollar 3 99 (fun _ => none) none).2.1.headD
      ⟨"", "", "", "", ""⟩).html) "Hi [name], welcome" = true ∧
    strContains (((sendCampaign wDBDollar 3 99 (fun _ => none) none).2.1.headD
      ⟨"", "", "", "", ""⟩).html) "Hi $&, welcome" = false := by
  decide

/-- C6 (amended): per-recipient personalization substitutes every
case-insensitive `[name]` occurrence with the contact's name, falling back
to the literal "there" when the contact has none, *provided the effective
name contains no dollar character* — JS `String.replace` interprets `$$`,
`$&`, dollar-backtick and dollar-quote in the replacement string, so e.g. a
contact named "$&" has each token replaced by the matched token text
instead (see the counterexample).  First conjunct: the replacement walks
the content left to right, rewriting each match (applied recursively);
then: the effective replacement is the name exactly when one is present
and "there" otherwise; and on the concrete store the rendered mails
contain "Hi Ada, welcome" / "Hi there, welcome", with upper-case token
variants replaced alike. -/
theorem personalization_name_token_amended :
    (∀ (a t b : String) (c : ContactRow),
      '$' ∉ (effectiveName c).data →
      '[' ∉ a.data → isNameTok t.data = true → t.data.length = 6 →
      jsReplaceNameGI (a ++ t ++ b) (effectiveName c)
        = a ++ effectiveName c ++ jsReplaceNameGI b (effectiveName c)) ∧
    (∀ c : ContactRow, c.name = none → effectiveName c = "there") ∧
    (∀ (c : ContactRow) (n : String), c.name = some n → n ≠ "" → effectiveName c = n) ∧
    strContains (((sendCampaign wDBPlain 3 99 (fun _ => none) none).2.1.headD
      ⟨"", "", "", "", ""⟩).html) "Hi Ada, welcome" = true ∧
    strContains (((sendCampaign wDBPlain 3 99 (fun _ => none) none).2.1.getD 1
      ⟨"", "", "", "", ""⟩).html) "Hi there, welcome" = true ∧
    jsReplaceNameGI "x[NAME]y[Name]z[name]w" "Ada" = "xAdayAdazAdaw" := by
  refine ⟨?_, fun c hc => by simp [effectiveName, hc], ?_, by decide, by decide, by decide⟩
  · intro a t b c hds ha ht hlen
    show String.mk (replaceNameCI (effectiveName c).data (a ++ t ++ b).data) = _
    have hd : (a ++ t ++ b).data = a.data ++ t.data ++ b.data := rfl
    rw [hd, replaceNameCI_split (effectiveName c).data hds a.data t.data b.data ha ht hlen]
    rfl
  · intro c n hc hn
    simp [effectiveName, hc, hn]

/-- Witness for C6 (amended): instantiating the substitution equation at the
mixed-case token "[NaMe]" and contact Ada (whose name has no dollar), and
the fallback clauses at the concrete contacts. -/
theorem personalization_name_token_amended_witness :
    jsReplaceNameGI ("Hi " ++ "[NaMe]" ++ ", welcome") (effectiveName wAda)
      = "Hi " ++ effectiveName wAda ++ jsReplaceNameGI ", welcome" (effectiveName wAda) ∧
    effectiveName wNoName = "there" ∧
    effectiveName wAda = "Ada" :=
  ⟨personalization_name_token_amended.1 "Hi " "[NaMe]" ", welcome" wAda
      (by decide) (by decide) (by decide) (by decide),
   personalization_name_token_amended.2.1 wNoName rfl,
   personalization_name_token_amended.2.2.1 wAda "Ada" rfl (by decide)⟩

theorem hasTokCI_unsubToken_append (z : List Char) :
    hasTokCI (unsubToken.data ++ z) = hasTokCI z := rfl

theorem hasTokCI_ublock_cross (z : List Char) :
    hasTokCI (unsubscribeLinkBlock.data ++ z) = hasTokCI z := rfl

theorem hasSub_unsub_tracking_cross (z : List Char) :
    hasSub unsubToken.data ("[[TRACKING_PIXEL_URL]]&contactId=".data ++ z)
      = hasSub unsubToken.data z := rfl

theorem hasSub_unsub_ubPre_cross (z : List Char) :
    hasSub unsubToken.data (ubPre.data ++ z) = hasSub unsubToken.data z := rfl

theorem str_data_append (a b : String) : (a ++ b).data = a.data ++ b.data := rfl
theorem str_data_mk (l : List Char) : (String.mk l).data = l := rfl

theorem ublock_decomp :
    unsubscribeLinkBlock.data = ubPre.data ++ (unsubToken.data ++ ubPost.data) := rfl

theorem replaceFirst_ubPre_cross (u z : List Char) :
    replaceFirstSub unsubToken.data u (ubPre.data ++ z)
      = ubPre.data ++ replaceFirstSub unsubToken.data u z := rfl

theorem replaceFirst_hit_unsub (u z : List Char) :
    replaceFirstSub unsubToken.data u (unsubToken.data ++ z) = u ++ z := by
  have e : unsubToken.data = '[' :: "[UNSUBSCRIBE_LINK]]".data := rfl
  rw [e]
  exact replaceFirstSub_hit '[' _ u z

theorem hasSub_unsub_pixHead_cross (z : List Char) :
    hasSub unsubToken.data (pixHead.data ++ z) = hasSub unsubToken.data z := rfl

theorem hasTokCI_composeBase (body : String) (s : SettingsRow)
    (hb : '[' ∉ body.data) (hfoot : ∀ f, s.defaultFooter = some f → '[' ∉ f.data) :
    hasTokCI (composeBaseContent body s).data = false := by
  have hf1 : ∀ z, hasTokCI (footerBlockPre.data ++ z) = hasTokCI z :=
    fun z => hasTokCI_append_left _ z (by decide)
  have hcb : ∀ z, hasTokCI (body.data ++ z) = hasTokCI z :=
    fun z => hasTokCI_append_left _ z hb
  rw [composeBaseContent]
  cases hflag : s.includeUnsubscribeLink with
  | false =>
    cases hdf : s.defaultFooter with
    | none =>
      simp only [Bool.false_eq_true, if_false]
      rw [show body.data = body.data ++ [] from by simp, hcb]
      rfl
    | some f =>
      by_cases hfe : (f == "") = true
      · simp only [Bool.false_eq_true, if_false, if_pos hfe]
        rw [show body.data = body.data ++ [] from by simp, hcb]
        rfl
      · simp only [Bool.false_eq_true, if_false, if_neg hfe]
        have hff : ∀ z, hasTokCI (f.data ++ z) = hasTokCI z :=
          fun z => hasTokCI_append_left _ z (hfoot f hdf)
        show hasTokCI (((body ++ footerBlockPre) ++ f) ++ footerBlockPost).data = false
        rw [str_data_append, str_data_append, str_data_append]
        rw [List.append_assoc, List.append_assoc, hcb, hf1, hff]
        decide
  | true =>
    cases hdf : s.defaultFooter with
    | none =>
      simp only [if_true]
      rw [str_data_append, show body.data ++ unsubscribeLinkBlock.data
        = body.data ++ (unsubscribeLinkBlock.data ++ []) from by simp, hcb,
        hasTokCI_ublock_cross]
      rfl
    | some f =>
      by_cases hfe : (f == "") = true
      · simp only [if_true, if_pos hfe]
        rw [str_data_append, show body.data ++ unsubscribeLinkBlock.data
          = body.data ++ (unsubscribeLinkBlock.data ++ []) from by simp, hcb,
          hasTokCI_ublock_cross]
        rfl
      · simp only [if_true, if_neg hfe]
        have hff : ∀ z, hasTokCI (f.data ++ z) = hasTokCI z :=
          fun z => hasTokCI_append_left _ z (hfoot f hdf)
        show hasTokCI ((((body ++ unsubscribeLinkBlock) ++ footerBlockPre) ++ f)
          ++ footerBlockPost).data = false
        rw [str_data_append, str_data_append, str_data_append, str_data_append]
        rw [List.append_assoc, List.append_assoc, List.append_assoc,
          hcb, hasTokCI_ublock_cross, hf1, hff]
        decide

theorem pixel_decomp (ct cid : Nat) :
    (trackingPixel ct cid).data
      = pixHead.data ++ (natDigits ct ++ (pixMid.data ++ (natDigits cid ++ pixTail.data))) := by
  show (pixHead ++ natStr ct ++ pixMid ++ natStr cid ++ pixTail).data = _
  rw [str_data_append, str_data_append, str_data_append, str_data_append]
  simp [natStr, str_data_mk, List.append_assoc]

theorem hasSub_unsub_pixel (ct cid : Nat) :
    hasSub unsubToken.data (trackingPixel ct cid).data = false := by
  rw [pixel_decomp, hasSub_unsub_pixHead_cross,
    hasSub_append_left unsubToken.data _ _ ⟨_, rfl⟩ (natDigits_no_bracket ct),
    hasSub_append_left unsubToken.data _ _ ⟨_, rfl⟩ (by decide : '[' ∉ pixMid.data),
    hasSub_append_left unsubToken.data _ _ ⟨_, rfl⟩ (natDigits_no_bracket cid)]
  decide

theorem personalize_core_general (body : String) (s : SettingsRow) (c : ContactRow) (cid : Nat)
    (T : List Char)
    (hbody : '[' ∉ body.data)
    (hbase : hasTokCI (composeBaseContent body s).data = false)
    (hdec : (composeBaseContent body s).data ++ (trackingPixel c.id cid).data
      = body.data ++ (ubPre.data ++ (unsubToken.data ++ T)))
    (hT : hasSub unsubToken.data T = false) :
    strContains (personalizeContent (composeBaseContent body s) c cid) unsubToken = false ∧
    strContains (personalizeContent (composeBaseContent body s) c cid)
      (unsubscribeUrl c.email cid) = true := by
  have hnamed : jsReplaceNameGI (composeBaseContent body s) (effectiveName c)
      = composeBaseContent body s := by
    show String.mk _ = _
    rw [replaceNameCI_no_tok _ _ hbase]
  have hstep : personalizeContent (composeBaseContent body s) c cid
      = ⟨replaceFirstSub unsubToken.data (unsubscribeUrl c.email cid).data
          ((composeBaseContent body s).data ++ (trackingPixel c.id cid).data)⟩ := by
    unfold personalizeContent
    rw [hnamed]
    rfl
  have hfinal : (personalizeContent (composeBaseContent body s) c cid).data
      = body.data ++ (ubPre.data ++ ((unsubscribeUrl c.email cid).data ++ T)) := by
    rw [hstep, str_data_mk, hdec,
      replaceFirstSub_append_left unsubToken.data _ _ _ ⟨_, rfl⟩ hbody,
      replaceFirst_ubPre_cross, replaceFirst_hit_unsub]
  constructor
  · show hasSub unsubToken.data (personalizeContent (composeBaseContent body s) c cid).data
      = false
    rw [hfinal, hasSub_append_left unsubToken.data _ _ ⟨_, rfl⟩ hbody,
      hasSub_unsub_ubPre_cross,
      hasSub_append_left unsubToken.data _ _ ⟨_, rfl⟩ (unsubscribeUrl_no_bracket c.email cid),
      hT]
  · show hasSub (unsubscribeUrl c.email cid).data
      (personalizeContent (composeBaseContent body s) c cid).data = true
    rw [hfinal]
    apply hasSub_append_of
    apply hasSub_append_of
    obtain ⟨q, hq⟩ : ∃ q, (unsubscribeUrl c.email cid).data = 'h' :: q := ⟨_, rfl⟩
    rw [hq]
    exact hasSub_self_append 'h' q T

theorem personalize_unsub_core (body : String) (s : SettingsRow) (c : ContactRow) (cid : Nat)
    (hflag : s.includeUnsubscribeLink = true)
    (hbody : '[' ∉ body.data)
    (hfoot : ∀ f, s.defaultFooter = some f → '[' ∉ f.data) :
    strContains (personalizeContent (composeBaseContent body s) c cid) unsubToken = false ∧
    strContains (personalizeContent (composeBaseContent body s) c cid)
      (unsubscribeUrl c.email cid) = true := by
  have hbase : hasTokCI (composeBaseContent body s).data = false :=
    hasTokCI_composeBase body s hbody hfoot
  cases hdf : s.defaultFooter with
  | none =>
    refine personalize_core_general body s c cid
      (ubPost.data ++ (trackingPixel c.id cid).data) hbody hbase ?_ ?_
    · simp only [composeBaseContent, hflag, if_true, hdf]
      rw [str_data_append, ublock_decomp]
      simp [List.append_assoc]
    · rw [hasSub_append_left unsubToken.data _ _ ⟨_, rfl⟩ (by decide : '[' ∉ ubPost.data)]
      exact hasSub_unsub_pixel c.id cid
  | some f =>
    by_cases hfe : (f == "") = true
    · refine personalize_core_general body s c cid
        (ubPost.data ++ (trackingPixel c.id cid).data) hbody hbase ?_ ?_
      · simp only [composeBaseContent, hflag, if_true, hdf, if_pos hfe]
        rw [str_data_append, ublock_decomp]
        simp [List.append_assoc]
      · rw [hasSub_append_left unsubToken.data _ _ ⟨_, rfl⟩ (by decide : '[' ∉ ubPost.data)]
        exact hasSub_unsub_pixel c.id cid
    · refine personalize_core_general body s c cid
        (ubPost.data ++ (footerBlockPre.data ++ (f.data ++ (footerBlockPost.data
          ++ (trackingPixel c.id cid).data)))) hbody hbase ?_ ?_
      · simp only [composeBaseContent, hflag, if_true, hdf, if_neg hfe]
        rw [str_data_append, str_data_append, str_data_append, str_data_append, ublock_decomp]
        simp [List.append_assoc]
      · rw [hasSub_append_left unsubToken.data _ _ ⟨_, rfl⟩ (by decide : '[' ∉ ubPost.data),
          hasSub_append_left unsubToken.data _ _ ⟨_, rfl⟩ (by decide : '[' ∉ footerBlockPre.data),
          hasSub_append_left unsubToken.data _ _ ⟨_, rfl⟩ (hfoot f hdf),
          hasSub_append_left unsubToken.data _ _ ⟨_, rfl⟩ (by decide : '[' ∉ footerBlockPost.data)]
        exact hasSub_unsub_pixel c.id cid

/-- Counterexample to C5 as stated: the unsubscribe flag is set, the authored
body contains the placeholder token, and after the send the delivered HTML
still contains the token — JS `String.replace` with a string pattern
substitutes only the first occurrence, so the appended block's placeholder
survives. -/
theorem unsub_placeholder_survives_cx :
    wSettings.includeUnsubscribeLink = true ∧
    strContains wCampaignTok.content unsubToken = true ∧
    (sendCampaign wDBTok 10 99 (fun _ => none) none).2.1.length = 1 ∧
    strContains (((sendCampaign wDBTok 10 99 (fun _ => none) none).2.1.headD
      ⟨"", "", "", "", ""⟩).html) unsubToken = true := by
  decide

/-- C5 (amended): with the include-unsubscribe flag set, the *first*
occurrence of the placeholder in the personalized output is replaced with the
unsubscribe URL carrying the recipient's percent-encoded email and the
campaign id; when the authored body and footer contain no occurrence of the
token (here: no '[' at all, which also rules out recreating one by
substitution), the appended placeholder is that first occurrence, it is fully
replaced, the URL occurs in the final output and no placeholder token remains
anywhere in it; when the authored body itself contains the token, the body's
occurrence is replaced instead and the appended placeholder survives (see the
counterexample). -/
theorem sendCampaign_unsub_substitution_amended
    (db : DB) (cid now : Nat) (outcome : Nat → Option String)
    (campaign : CampaignRow) (s : SettingsRow) (c : ContactRow)
    (hc : findCampaign db cid = some campaign)
    (hs : findSettings db campaign.userId = some s)
    (hhost : smtpHostMissing s = false)
    (hflag : s.includeUnsubscribeLink = true)
    (hbody : '[' ∉ campaign.content.data)
    (hfoot : ∀ f, s.defaultFooter = some f → '[' ∉ f.data)
    (hmem : c ∈ contactsInList db campaign.listId) :
    strContains (personalizeContent (composeBaseContent campaign.content s) c cid)
      unsubToken = false ∧
    strContains (personalizeContent (composeBaseContent campaign.content s) c cid)
      (unsubscribeUrl c.email cid) = true ∧
    mailFor campaign c (personalizeContent (composeBaseContent campaign.content s) c cid)
      ∈ (sendCampaign db cid now outcome none).2.1 := by
  have hcore := personalize_unsub_core campaign.content s c cid hflag hbody hfoot
  refine ⟨hcore.1, hcore.2, ?_⟩
  have hne : contactsInList db campaign.listId ≠ [] := List.ne_nil_of_mem hmem
  rw [sendCampaign_nonempty_eq db cid now outcome campaign s hc hs hhost hne]
  exact List.mem_map_of_mem _ hmem

/-- Witness for C5 (amended) on the concrete store: campaign 12 has a
bracket-free body; Ada's mail contains the unsubscribe URL with her encoded
email and the campaign id, and no placeholder token remains. -/
theorem sendCampaign_unsub_substitution_amended_witness :
    strContains (personalizeContent (composeBaseContent wCampaignPlainBody.content wSettings)
      wAda 12) unsubToken = false ∧
    strContains (personalizeContent (composeBaseContent wCampaignPlainBody.content wSettings)
      wAda 12) (unsubscribeUrl wAda.email 12) = true ∧
    mailFor wCampaignPlainBody wAda
      (personalizeContent (composeBaseContent wCampaignPlainBody.content wSettings) wAda 12)
      ∈ (sendCampaign wDBC5 12 99 (fun _ => none) none).2.1 :=
  sendCampaign_unsub_substitution_amended wDBC5 12 99 (fun _ => none)
    wCampaignPlainBody wSettings wAda (by decide) (by decide) (by decide) (by decide)
    (by decide)
    (by
      intro f hf
      have h0 : some "The footer" = some f := hf
      have hfe : f = "The footer" := (Option.some.inj h0).symm
      subst hfe
      decide)
    (by decide)

end MarketingMail
